import Mathlib

/-!
Verification development for the notification-settings manager
(`src/sentry/notifications/manager.py`).

The Python module is shallowly embedded below: the two database tables the
manager reads and writes (`NotificationSetting` rows and the derived
`NotificationSettingProvider` projection rows), the double-write table
(`NotificationSettingOption`), and the analytics event stream are carried in an
explicit `State`; every manager method becomes a pure Lean function on that
state.  Django query-set operations (`filter`, `get_or_create`,
`create_or_update`, bulk `delete`) are modelled as list operations that match
exactly the key-equality semantics the code uses, including the Python
truthiness checks in `_filter` (a falsy argument drops the constraint) and
`IS NULL` matching for absent `user_id` / `team_id` columns.

Helpers that the manager imports from modules that are not part of the sources
(`get_scope`, `get_scope_type`, `validate`, the enum/value tables, and the
`NotificationController` used by `filter_to_accepting_recipients`) are
modelled from the specification and marked as such in their doc comments.
-/

namespace Sentry

/-- External providers (`ExternalProviders`).  `pagerduty` is a provider that
exists in the catalog of external providers but is not one of the personal
notification providers. -/
inductive Provider
  | email
  | slack
  | msteams
  | pagerduty
deriving DecidableEq

/-- Alert types (`NotificationSettingTypes`). -/
inductive NType
  | deploy
  | issueAlerts
  | workflow
  | approval
  | quota
deriving DecidableEq

/-- Scope types (`NotificationScopeType`). -/
inductive NScope
  | user
  | organization
  | project
  | team
deriving DecidableEq

/-- Setting values (`NotificationSettingOptionValues`). -/
inductive NValue
  | default
  | always
  | never
  | subscribeOnly
  | committedOnly
deriving DecidableEq

/-- `ActorType` from the actor service. -/
inductive ActorType
  | user
  | team
deriving DecidableEq

/-- A resolved recipient: a tagged user or team id (`RpcActor`). -/
structure Actor where
  actor_type : ActorType
  id : Nat
deriving DecidableEq

/-- A `NotificationSetting` row. -/
structure SettingRec where
  id : Nat
  provider : Provider
  type : NType
  scope_type : NScope
  scope_identifier : Nat
  user_id : Option Nat
  team_id : Option Nat
  value : NValue
deriving DecidableEq

/-- A `NotificationSettingOption` row (the normalized double-write table);
its `type`, `scope_type` and `value` columns are strings. -/
structure OptionRec where
  type_s : String
  scope_type_s : String
  scope_identifier : Nat
  user_id : Option Nat
  team_id : Option Nat
  value_s : String
deriving DecidableEq

/-- A `NotificationSettingProvider` row: the per-provider projection. -/
structure ProviderRec where
  provider : Provider
  type : NType
  scope_type : NScope
  scope_identifier : Nat
  user_id : Option Nat
  team_id : Option Nat
  value : NValue
deriving DecidableEq

/-- An analytics event recorded through `analytics.record`. -/
structure AEvent where
  name : String
  target_type : String
  id : Nat
deriving DecidableEq

/-- The store state: the three tables, the analytics stream, and the
auto-increment id counter for `NotificationSetting` rows. -/
structure State where
  settings : List SettingRec
  options : List OptionRec
  providers : List ProviderRec
  events : List AEvent
  nextId : Nat
deriving DecidableEq

/-- Failure modes surfaced by the manager.  `invalidScope` is the scope
resolver failure; `invalidValueForType` is the `update_settings` raise for a
value not allowed for a type; `assertionError` is a failed Python `assert`;
`nameError` is the unbound-local failure at `assert actor_type` in
`update_settings` when no recipient was supplied; `multipleObjectsReturned`
is Django's `get_or_create` failure on a duplicated key. -/
inductive Err
  | invalidScope
  | invalidValueForType
  | assertionError
  | nameError
  | multipleObjectsReturned
deriving DecidableEq

/-- `PERSONAL_NOTIFICATION_PROVIDERS`: the fixed provider catalog used by the
projection rebuild. -/
def PERSONAL_NOTIFICATION_PROVIDERS : List Provider :=
  [Provider.email, Provider.slack, Provider.msteams]

/-- The keys of `VALID_VALUES_FOR_KEY_V2`: the fixed alert-type table iterated
by the projection rebuild. -/
def VALID_TYPE_KEYS : List NType :=
  [NType.approval, NType.deploy, NType.issueAlerts, NType.quota, NType.workflow]

/-- Modelled from the spec: the fixed compatibility table
`VALID_VALUES_FOR_KEY_V2` (the types module is not part of the sources); it
lists, per alert type, the non-default values a caller may set. -/
def VALID_VALUES_FOR_KEY_V2 (t : NType) : List NValue :=
  match t with
  | NType.approval => [NValue.always, NValue.never]
  | NType.deploy => [NValue.always, NValue.committedOnly, NValue.never]
  | NType.issueAlerts => [NValue.always, NValue.never]
  | NType.quota => [NValue.always, NValue.never]
  | NType.workflow => [NValue.always, NValue.subscribeOnly, NValue.never]

/-- Modelled from the spec: helper `validate` (missing helpers module) checks
a value against the fixed compatibility table. -/
def validate (t : NType) (v : NValue) : Bool :=
  decide (v ∈ VALID_VALUES_FOR_KEY_V2 t)

/-- Modelled from the spec: the `NOTIFICATION_SETTING_TYPES` string table of
the missing types module (alert type to storage string). -/
def NOTIFICATION_SETTING_TYPES : NType → String
  | NType.deploy => "deploy"
  | NType.issueAlerts => "alerts"
  | NType.workflow => "workflow"
  | NType.approval => "approval"
  | NType.quota => "quota"

/-- Modelled from the spec: the `NOTIFICATION_SCOPE_TYPE` string table of the
missing types module (scope type to storage string). -/
def NOTIFICATION_SCOPE_TYPE : NScope → String
  | NScope.user => "user"
  | NScope.organization => "organization"
  | NScope.project => "project"
  | NScope.team => "team"

/-- Modelled from the spec: the `NOTIFICATION_SETTING_OPTION_VALUES` string
table of the missing types module (value to storage string). -/
def NOTIFICATION_SETTING_OPTION_VALUES : NValue → String
  | NValue.default => "default"
  | NValue.always => "always"
  | NValue.never => "never"
  | NValue.subscribeOnly => "subscribe_only"
  | NValue.committedOnly => "committed_only"

/-- The string a raw `NotificationSettingTypes` enum member contributes when it
is passed directly into a string-column filter (as `remove_settings` does with
`type=type` against `NotificationSettingOption.type`); it differs from the
stored short names in `NOTIFICATION_SETTING_TYPES`. -/
def typeEnumRepr : NType → String
  | NType.deploy => "NotificationSettingTypes.DEPLOY"
  | NType.issueAlerts => "NotificationSettingTypes.ISSUE_ALERTS"
  | NType.workflow => "NotificationSettingTypes.WORKFLOW"
  | NType.approval => "NotificationSettingTypes.APPROVAL"
  | NType.quota => "NotificationSettingTypes.QUOTA"

/-- Modelled from the spec: `get_scope` of the missing helpers module
(spec section 4.1, Scope Resolver): the project scope wins, then the
organization scope, then the recipient's own global scope; it fails with
`InvalidScopeError` when both team and user are given, or neither. -/
def get_scope (team user project organization : Option Nat) :
    Except Err (NScope × Nat) :=
  if team.isSome && user.isSome then Except.error Err.invalidScope
  else if team.isNone && user.isNone then Except.error Err.invalidScope
  else
    match project with
    | some p => Except.ok (NScope.project, p)
    | none =>
      match organization with
      | some o => Except.ok (NScope.organization, o)
      | none =>
        match team with
        | some t => Except.ok (NScope.team, t)
        | none => Except.ok (NScope.user, user.getD 0)

/-- Modelled from the spec: `get_scope_type` of the missing helpers module:
the parent-specific scope tier that is natural for an alert type. -/
def get_scope_type (t : NType) : NScope :=
  match t with
  | NType.deploy => NScope.organization
  | NType.approval => NScope.organization
  | NType.quota => NScope.organization
  | NType.issueAlerts => NScope.project
  | NType.workflow => NScope.project

/-- `x in l` for a nullable id column (`__in` lookup): a NULL column value
never matches. -/
def omem (o : Option Nat) (l : List Nat) : Bool :=
  match o with
  | some x => decide (x ∈ l)
  | none => false

/-- Python truthiness of an optional integer: `None` and `0` are falsy. -/
def truthyOpt : Option Nat → Bool
  | some n => decide (n ≠ 0)
  | none => false

/-- The predicate built by `NotificationsManager._filter`: each constraint is
added only when the corresponding argument is truthy in Python.  In
particular a `scope_identifier` of `0` adds no constraint, and an empty
recipient set adds no recipient constraint. -/
def _filter (provider : Option Provider) (type : Option NType)
    (scope_type : Option NScope) (scope_identifier : Option Nat)
    (user_ids team_ids : List Nat) (r : SettingRec) : Bool :=
  (match provider with
   | some p => decide (r.provider = p)
   | none => true) &&
  (match type with
   | some t => decide (r.type = t)
   | none => true) &&
  (match scope_type with
   | some st => decide (r.scope_type = st)
   | none => true) &&
  (match scope_identifier with
   | some si => if si = 0 then true else decide (r.scope_identifier = si)
   | none => true) &&
  (if team_ids.isEmpty && user_ids.isEmpty then true
   else omem r.team_id team_ids || omem r.user_id user_ids)

/-- `remove_for_project`: bulk delete of PROJECT-scoped rows via `_filter`. -/
def remove_for_project (project_id : Nat) (type : Option NType) (s : State) :
    State :=
  { s with settings := s.settings.filter (fun r =>
      !(_filter none type (some NScope.project) (some project_id) [] [] r)) }

/-- `remove_for_organization`: bulk delete of ORGANIZATION-scoped rows. -/
def remove_for_organization (organization_id : Nat) (type : Option NType)
    (s : State) : State :=
  { s with settings := s.settings.filter (fun r =>
      !(_filter none type (some NScope.organization) (some organization_id)
          [] [] r)) }

/-- `remove_for_user`: bulk delete of all rows owned by a user. -/
def remove_for_user (uid : Nat) (type : Option NType) (s : State) : State :=
  { s with settings := s.settings.filter (fun r =>
      !(_filter none type none none [uid] [] r)) }

/-- `find_settings`: asserts a single recipient, resolves the scope and
returns the `_filter` predicate for the key.  The sets `team_ids` and
`user_ids` only pick up truthy ids, exactly as the Python code does. -/
def find_settings (provider : Provider) (type : NType)
    (user_id team_id : Option Nat) (project organization : Option Nat) :
    Except Err (SettingRec → Bool) :=
  let team_ids : List Nat :=
    match team_id with
    | some t => if t = 0 then [] else [t]
    | none => []
  let user_ids : List Nat :=
    match user_id with
    | some u => if u = 0 then [] else [u]
    | none => []
  if !((!team_ids.isEmpty && user_ids.isEmpty)
       || (!user_ids.isEmpty && team_ids.isEmpty)) then
    Except.error Err.assertionError
  else
    match get_scope team_id user_id project organization with
    | Except.error e => Except.error e
    | Except.ok (st, si) =>
      Except.ok (_filter (some provider) (some type) (some st) (some si)
        user_ids team_ids)

/-- `get_settings`: the value of the first matching row, else DEFAULT. -/
def get_settings (provider : Provider) (type : NType)
    (user_id team_id : Option Nat) (project organization : Option Nat)
    (s : State) : Except Err NValue :=
  match find_settings provider type user_id team_id project organization with
  | Except.error e => Except.error e
  | Except.ok pred =>
    match (s.settings.filter pred).head? with
    | some r => Except.ok r.value
    | none => Except.ok NValue.default

/-- `remove_settings`: resolves the scope, deletes the matching
`NotificationSettingOption` rows (the filter passes the raw type enum into the
string column, so it compares against `typeEnumRepr`), then deletes the
matching `NotificationSetting` rows through `find_settings`. -/
def remove_settings (provider : Provider) (type : NType)
    (user_id team_id : Option Nat) (project organization : Option Nat)
    (s : State) : Option Err × State :=
  match get_scope team_id user_id project organization with
  | Except.error e => (some e, s)
  | Except.ok (st, si) =>
    let scope_type_s := NOTIFICATION_SCOPE_TYPE st
    let s1 : State := { s with options := s.options.filter (fun o =>
      !(decide (o.scope_type_s = scope_type_s)
        && decide (o.scope_identifier = si)
        && decide (o.team_id = team_id)
        && decide (o.user_id = user_id)
        && decide (o.type_s = typeEnumRepr type))) }
    match find_settings provider type user_id team_id project organization with
    | Except.error e => (some e, s1)
    | Except.ok pred =>
      (none, { s1 with settings := s1.settings.filter (fun r => !(pred r)) })

/-- The exact-equality key `get_or_create` looks up a `NotificationSetting`
row by: all six key columns, with NULL matching for the absent recipient
column. -/
def settingKey (provider : Provider) (type : NType) (st : NScope) (si : Nat)
    (user_id team_id : Option Nat) (r : SettingRec) : Bool :=
  decide (r.provider = provider) && decide (r.type = type)
    && decide (r.scope_type = st) && decide (r.scope_identifier = si)
    && decide (r.user_id = user_id) && decide (r.team_id = team_id)

/-- Django `get_or_create` on the `NotificationSetting` table: at most one row
may match the key; with no match a fresh row is created from the key and the
defaults. -/
def get_or_create (provider : Provider) (type : NType) (st : NScope)
    (si : Nat) (user_id team_id : Option Nat) (default_value : NValue)
    (s : State) : Except Err (State × SettingRec × Bool) :=
  let key := settingKey provider type st si user_id team_id
  match s.settings.filter key with
  | [] =>
    let newRec : SettingRec :=
      ⟨s.nextId, provider, type, st, si, user_id, team_id, default_value⟩
    Except.ok ({ s with settings := s.settings ++ [newRec],
                        nextId := s.nextId + 1 }, newRec, true)
  | [r] => Except.ok (s, r, false)
  | _ :: _ :: _ => Except.error Err.multipleObjectsReturned

/-- `_update_settings`: `get_or_create`, then overwrite the value only when the
row exists and holds a different value (`setting.update` targets the row's
primary key). -/
def _update_settings (provider : Provider) (type : NType) (value : NValue)
    (scope_type : NScope) (scope_identifier : Nat)
    (user_id team_id : Option Nat) (s : State) : Option Err × State :=
  match get_or_create provider type scope_type scope_identifier user_id
      team_id value s with
  | Except.error e => (some e, s)
  | Except.ok (s1, setting, created) =>
    if !created && decide (setting.value ≠ value) then
      (none, { s1 with settings := s1.settings.map (fun r =>
        if r.id = setting.id then { r with value := value } else r) })
    else (none, s1)

/-- Sentry's `create_or_update` on the `NotificationSettingOption` table:
update every row matching the key, else create one. -/
def create_or_update_option (ts sts : String) (si : Nat)
    (uid tid : Option Nat) (vs : String) (s : State) : State :=
  let key := fun (o : OptionRec) =>
    decide (o.type_s = ts) && decide (o.scope_type_s = sts)
      && decide (o.scope_identifier = si) && decide (o.user_id = uid)
      && decide (o.team_id = tid)
  if s.options.any key then
    { s with options := s.options.map (fun o =>
        if key o then { o with value_s := vs } else o) }
  else { s with options := s.options ++ [⟨ts, sts, si, uid, tid, vs⟩] }

/-- The shared part of the projection-row key for one provider and one
recipient: `base_query` in `update_provider_settings`. -/
def baseKey (p : Provider) (uid tid : Option Nat) (pst : NScope) (psi : Nat)
    (r : ProviderRec) : Bool :=
  decide (r.provider = p) && decide (r.user_id = uid)
    && decide (r.team_id = tid) && decide (r.scope_type = pst)
    && decide (r.scope_identifier = psi)

/-- The full projection-row key (`base_query` plus the alert type). -/
def provKey (p : Provider) (uid tid : Option Nat) (pst : NScope) (psi : Nat)
    (t : NType) (r : ProviderRec) : Bool :=
  baseKey p uid tid pst psi r && decide (r.type = t)

/-- Sentry's `create_or_update` on the `NotificationSettingProvider` table. -/
def create_or_update_provider (rows : List ProviderRec) (p : Provider)
    (uid tid : Option Nat) (st : NScope) (si : Nat) (t : NType) (v : NValue) :
    List ProviderRec :=
  let key := provKey p uid tid st si t
  if rows.any key then
    rows.map (fun r => if key r then { r with value := v } else r)
  else rows ++ [⟨p, t, st, si, uid, tid, v⟩]

/-- The inner loop of `update_provider_settings` for one provider: upsert
ALWAYS for enabled types, NEVER for disabled types, and collect the remaining
types for deletion. -/
def providerTypesLoop (en dis : NType → Bool) (p : Provider)
    (uid tid : Option Nat) (pst : NScope) (psi : Nat) :
    List NType → List ProviderRec → List NType →
    List ProviderRec × List NType
  | [], rows, dels => (rows, dels)
  | t :: ts, rows, dels =>
    if en t then
      providerTypesLoop en dis p uid tid pst psi ts
        (create_or_update_provider rows p uid tid pst psi t NValue.always) dels
    else if dis t then
      providerTypesLoop en dis p uid tid pst psi ts
        (create_or_update_provider rows p uid tid pst psi t NValue.never) dels
    else providerTypesLoop en dis p uid tid pst psi ts rows (dels ++ [t])

/-- One provider's pass of `update_provider_settings`: the inner loop over the
alert-type table followed by the bulk delete of the collected types. -/
def processProvider (en dis : NType → Provider → Bool) (uid tid : Option Nat)
    (pst : NScope) (psi : Nat) (rows : List ProviderRec) (p : Provider) :
    List ProviderRec :=
  let step := providerTypesLoop (fun t => en t p) (fun t => dis t p) p uid tid
    pst psi VALID_TYPE_KEYS rows []
  step.1.filter (fun r =>
    !(baseKey p uid tid pst psi r && decide (r.type ∈ step.2)))

/-- A recipient's own (top-level) scope tier, as `update_provider_settings`
computes it (`parent_scope_type`). -/
def ownScope (uid tid : Option Nat) : NScope :=
  if tid.isSome then NScope.team else NScope.user

/-- A recipient's own scope identifier, as `update_provider_settings`
computes it (`parent_scope_identifier`). -/
def ownId (uid tid : Option Nat) : Nat :=
  match tid with
  | some t => t
  | none => uid.getD 0

/-- `update_provider_settings`: rebuild the provider projection for one
recipient from that recipient's top-level-scope `NotificationSetting` rows. -/
def update_provider_settings (user_id team_id : Option Nat) (s : State) :
    Option Err × State :=
  if !(truthyOpt team_id || truthyOpt user_id) then
    (some Err.assertionError, s)
  else
    let parent_scope_type : NScope :=
      if team_id.isSome then NScope.team else NScope.user
    let parent_scope_identifier : Nat :=
      match team_id with
      | some t => t
      | none => user_id.getD 0
    let notification_settings := s.settings.filter (fun r =>
      decide (r.user_id = user_id) && decide (r.team_id = team_id)
        && (decide (r.scope_type = NScope.user)
            || decide (r.scope_type = NScope.team)))
    let dis : NType → Provider → Bool := fun t p =>
      notification_settings.any (fun r =>
        decide (r.type = t) && decide (r.provider = p)
          && decide (r.value = NValue.never))
    let en : NType → Provider → Bool := fun t p =>
      notification_settings.any (fun r =>
        decide (r.type = t) && decide (r.provider = p)
          && decide (r.value ≠ NValue.never))
    (none, { s with providers :=
      (PERSONAL_NOTIFICATION_PROVIDERS.foldl
        (processProvider en dis user_id team_id parent_scope_type
          parent_scope_identifier) s.providers) })

/-- The "notifications.settings_updated" analytics event recorded by
`update_settings`. -/
def settingsUpdatedEvent (target_type : String) (i : Nat) : AEvent :=
  ⟨"notifications.settings_updated", target_type, i⟩

/-- `update_settings`: resolve the acting recipient (a supplied team silently
wins over a supplied user), record the analytics event, resolve the scope,
then either remove (value DEFAULT) or validate and upsert; double-write the
option table and finally rebuild the provider projection. -/
def update_settings (provider : Provider) (type : NType) (value : NValue)
    (user_id team_id : Option Nat) (project organization : Option Nat)
    (skip_provider_updates : Bool) (s : State) : Option Err × State :=
  match (match team_id with
         | some t => some (ActorType.team, t)
         | none =>
           match user_id with
           | some u => some (ActorType.user, u)
           | none => none) with
  | none => (some Err.nameError, s)
  | some (actor_type, actor_id) =>
    let s := { s with events := s.events ++
      [settingsUpdatedEvent
        (if actor_type = ActorType.user then "user" else "team") actor_id] }
    match get_scope team_id user_id project organization with
    | Except.error e => (some e, s)
    | Except.ok (scope_type, scope_identifier) =>
      let step : Option Err × State :=
        if value = NValue.default then
          remove_settings provider type user_id team_id project organization s
        else if !(validate type value) then
          (some Err.invalidValueForType, s)
        else if actor_type = ActorType.user then
          _update_settings provider type value scope_type scope_identifier
            (some actor_id) none s
        else
          _update_settings provider type value scope_type scope_identifier
            none (some actor_id) s
      match step with
      | (some e, s1) => (some e, s1)
      | (none, s1) =>
        let s2 : State :=
          if value = NValue.default then
            { s1 with options := s1.options.filter (fun o =>
              !(decide (o.type_s = NOTIFICATION_SETTING_TYPES type)
                && decide (o.scope_type_s = NOTIFICATION_SCOPE_TYPE scope_type)
                && decide (o.scope_identifier = scope_identifier)
                && decide (o.user_id = user_id)
                && decide (o.team_id = team_id))) }
          else
            create_or_update_option (NOTIFICATION_SETTING_TYPES type)
              (NOTIFICATION_SCOPE_TYPE scope_type) scope_identifier user_id
              team_id (NOTIFICATION_SETTING_OPTION_VALUES value) s1
        if skip_provider_updates then (none, s2)
        else update_provider_settings user_id team_id s2

/-- `get_for_recipient_by_parent`: all settings of one alert type owned by the
given users or teams, at the parent's natural tier or at the recipients' own
global scope; an empty recipient list short-circuits to the empty result. -/
def get_for_recipient_by_parent (type : NType) (parentId : Nat)
    (recipients : List Actor) (s : State) : List SettingRec :=
  let user_ids := (recipients.filter (fun a =>
    decide (a.actor_type = ActorType.user))).map Actor.id
  let team_ids := (recipients.filter (fun a =>
    decide (a.actor_type = ActorType.team))).map Actor.id
  if team_ids.isEmpty && user_ids.isEmpty then []
  else
    let pst := get_scope_type type
    s.settings.filter (fun r =>
      (decide (r.scope_type = pst) && decide (r.scope_identifier = parentId)
        || decide (r.scope_type = NScope.user)
            && decide (r.scope_identifier ∈ user_ids)
        || decide (r.scope_type = NScope.team)
            && decide (r.scope_identifier ∈ team_ids))
      && (omem r.team_id team_ids || omem r.user_id user_ids)
      && decide (r.type = type))

/-- A recipient's own global scope tier. -/
def ownScopeOf (a : Actor) : NScope :=
  match a.actor_type with
  | ActorType.user => NScope.user
  | ActorType.team => NScope.team

/-- Modelled from the spec: the record lookup used by the
`NotificationController` resolution (the controller module is not part of the
sources): the first stored setting of the given provider, type and scope that
is owned by the given recipient. -/
def recordFor (settings : List SettingRec) (p : Provider) (t : NType)
    (st : NScope) (si : Nat) (a : Actor) : Option SettingRec :=
  (settings.filter (fun r =>
    decide (r.provider = p) && decide (r.type = t)
      && decide (r.scope_type = st) && decide (r.scope_identifier = si)
      && (match a.actor_type with
          | ActorType.user => decide (r.user_id = some a.id)
          | ActorType.team => decide (r.team_id = some a.id)))).head?

/-- Modelled from the spec: `getSubscribersByProvider` (spec section 4.3), the
batch resolution behind `filter_to_accepting_recipients`: per recipient the
parent-scoped record wins over the recipient's own global record; with
neither, DEFAULT is resolved through the external default-policy table.  The
result is the recipient set of one provider. -/
def getSubscribersByProvider (policy : NType → Provider → Bool)
    (parentTier : NScope) (parentId : Nat) (recipients : List Actor)
    (t : NType) (settings : List SettingRec) (p : Provider) : List Actor :=
  recipients.filter (fun a =>
    match recordFor settings p t parentTier parentId a with
    | some r => decide (r.value ≠ NValue.never)
    | none =>
      match recordFor settings p t (ownScopeOf a) a.id a with
      | some r => decide (r.value ≠ NValue.never)
      | none => policy t p)

/-- `filter_to_accepting_recipients`: chooses the parent tier from the parent
entity and delegates to the controller resolution. -/
def filter_to_accepting_recipients (policy : NType → Provider → Bool)
    (parentIsProject : Bool) (parentId : Nat) (recipients : List Actor)
    (t : NType) (settings : List SettingRec) (p : Provider) : List Actor :=
  getSubscribersByProvider policy
    (if parentIsProject then NScope.project else NScope.organization)
    parentId recipients t settings p

/-! Shared helper lemmas. -/

theorem omem_singleton (o : Option Nat) (x : Nat) :
    omem o [x] = decide (o = some x) := by
  cases o <;> simp [omem]

theorem omem_eq (o : Option Nat) (l : List Nat) :
    omem o l = true ↔ ∃ x, o = some x ∧ x ∈ l := by
  cases o <;> simp [omem]

theorem omem_nil (o : Option Nat) : omem o [] = false := by
  cases o <;> simp [omem]

/-- The store key of one recipient's setting for one (provider, type, scope):
the predicate `find_settings` ends up filtering with when exactly one truthy
recipient id is supplied and the resolved scope identifier is nonzero. -/
def ownKey (provider : Provider) (type : NType) (st : NScope) (si : Nat)
    (uid tid : Option Nat) (r : SettingRec) : Bool :=
  decide (r.provider = provider) && decide (r.type = type)
    && decide (r.scope_type = st) && decide (r.scope_identifier = si)
    && ((uid.isSome && decide (r.user_id = uid))
        || (tid.isSome && decide (r.team_id = tid)))

theorem update_provider_settings_frame (uid tid : Option Nat) (s : State) :
    (update_provider_settings uid tid s).2.settings = s.settings
      ∧ (update_provider_settings uid tid s).2.options = s.options
      ∧ (update_provider_settings uid tid s).2.events = s.events
      ∧ (update_provider_settings uid tid s).2.nextId = s.nextId := by
  unfold update_provider_settings
  split <;> simp

theorem update_provider_settings_ok (uid tid : Option Nat) (s : State)
    (h : (truthyOpt tid || truthyOpt uid) = true) :
    (update_provider_settings uid tid s).1 = none := by
  simp [update_provider_settings, h]

/-! Claim theorems. -/

/-- Claim C8: for a real (nonzero) project id `P` and an optional type filter
`T`, `remove_for_project P T` deletes exactly the settings rows with scope
`(PROJECT, P)` that match the type filter; every other row — in particular any
USER-, TEAM-, or ORGANIZATION-scoped row, any row of a different project and,
when `T` is given, any row of a different type — survives. -/
theorem remove_for_project_exact (s : State) (P : Nat) (T : Option NType)
    (hP : P ≠ 0) :
    ∀ r : SettingRec, r ∈ (remove_for_project P T s).settings ↔
      (r ∈ s.settings ∧ ¬(r.scope_type = NScope.project
        ∧ r.scope_identifier = P ∧ ∀ t, T = some t → r.type = t)) := by
  intro r
  cases T with
  | none =>
    simp [remove_for_project, List.mem_filter, _filter, hP]
    tauto
  | some t =>
    simp [remove_for_project, List.mem_filter, _filter, hP]
    tauto

/-- Witness for C8 at a concrete nonzero project id. -/
theorem remove_for_project_exact_witness :
    (5 : Nat) ≠ 0 ∧
      (∀ r : SettingRec,
        r ∈ (remove_for_project 5 none
              (⟨[⟨1, Provider.email, NType.issueAlerts, NScope.project, 5,
                  some 3, none, NValue.always⟩], [], [], [], 2⟩ : State)).settings
          ↔ (r ∈ [(⟨1, Provider.email, NType.issueAlerts, NScope.project, 5,
                  some 3, none, NValue.always⟩ : SettingRec)]
              ∧ ¬(r.scope_type = NScope.project ∧ r.scope_identifier = 5
                  ∧ ∀ t, (none : Option NType) = some t → r.type = t))) :=
  ⟨by decide, remove_for_project_exact
    ⟨[⟨1, Provider.email, NType.issueAlerts, NScope.project, 5, some 3, none,
        NValue.always⟩], [], [], [], 2⟩ 5 none (by decide)⟩

/-- Claim C10: `_filter` treats a falsy argument as "no constraint", so
`remove_for_project 0 T` drops the scope-identifier constraint and deletes
every PROJECT-scoped row whatever its project id, and
`remove_for_organization 0 T` does the same for ORGANIZATION-scoped rows. -/
theorem remove_with_zero_id_drops_identifier (s : State) (T : Option NType) :
    (∀ r : SettingRec, r ∈ (remove_for_project 0 T s).settings ↔
      (r ∈ s.settings ∧ ¬(r.scope_type = NScope.project
        ∧ ∀ t, T = some t → r.type = t)))
    ∧ (∀ r : SettingRec, r ∈ (remove_for_organization 0 T s).settings ↔
      (r ∈ s.settings ∧ ¬(r.scope_type = NScope.organization
        ∧ ∀ t, T = some t → r.type = t))) := by
  constructor <;> intro r <;>
    cases T <;>
      simp [remove_for_project, remove_for_organization, List.mem_filter,
        _filter] <;>
      tauto

/-- Claim C9: `get_for_recipient_by_parent` returns exactly the settings rows
of the given alert type whose owner column is one of the given recipients
(team ids against the team column, user ids against the user column) and
whose scope is the parent's natural tier with the parent's id, or the USER
scope of a given user, or the TEAM scope of a given team; an empty recipient
list yields the empty result without touching the store. -/
theorem get_for_recipient_by_parent_exact (s : State) (t : NType)
    (parentId : Nat) (recipients : List Actor) :
    (recipients = [] → get_for_recipient_by_parent t parentId recipients s = [])
    ∧ (∀ r : SettingRec,
        r ∈ get_for_recipient_by_parent t parentId recipients s ↔
          (r ∈ s.settings ∧ r.type = t
            ∧ ((∃ a ∈ recipients, a.actor_type = ActorType.team
                  ∧ r.team_id = some a.id)
                ∨ (∃ a ∈ recipients, a.actor_type = ActorType.user
                  ∧ r.user_id = some a.id))
            ∧ (r.scope_type = get_scope_type t
                  ∧ r.scope_identifier = parentId
                ∨ r.scope_type = NScope.user
                  ∧ (∃ a ∈ recipients, a.actor_type = ActorType.user
                      ∧ r.scope_identifier = a.id)
                ∨ r.scope_type = NScope.team
                  ∧ (∃ a ∈ recipients, a.actor_type = ActorType.team
                      ∧ r.scope_identifier = a.id)))) := by
  constructor
  · intro h
    subst h
    simp [get_for_recipient_by_parent]
  · intro r
    by_cases hempty : recipients = []
    · subst hempty
      simp [get_for_recipient_by_parent]
    · have hg : ¬(((recipients.filter (fun a =>
          decide (a.actor_type = ActorType.team))).map Actor.id).isEmpty
          && ((recipients.filter (fun a =>
          decide (a.actor_type = ActorType.user))).map Actor.id).isEmpty)
            = true := by
        intro hcontra
        rw [Bool.and_eq_true] at hcontra
        obtain ⟨h1, h2⟩ := hcontra
        rw [List.isEmpty_iff, List.map_eq_nil_iff,
          List.filter_eq_nil_iff] at h1 h2
        cases hrec : recipients with
        | nil => exact hempty hrec
        | cons a l =>
          cases ha : a.actor_type
          · exact h2 a (by rw [hrec]; exact List.mem_cons_self a l)
              (by simp [ha])
          · exact h1 a (by rw [hrec]; exact List.mem_cons_self a l)
              (by simp [ha])
      simp only [get_for_recipient_by_parent]
      rw [if_neg hg]
      simp only [List.mem_filter, Bool.and_eq_true, Bool.or_eq_true,
        decide_eq_true_eq, omem_eq, List.mem_map, List.mem_filter]
      constructor
      · rintro ⟨hmem, ⟨hscope, hown⟩, htype⟩
        refine ⟨hmem, htype, ?_, ?_⟩
        · rcases hown with ⟨x, hcol, a, ⟨hain, haty⟩, haid⟩
              | ⟨x, hcol, a, ⟨hain, haty⟩, haid⟩
          · exact Or.inl ⟨a, hain, haty, by rw [hcol, haid]⟩
          · exact Or.inr ⟨a, hain, haty, by rw [hcol, haid]⟩
        · rcases hscope with (hp | ⟨hsu, a, ⟨hain, haty⟩, haid⟩)
              | ⟨hst, a, ⟨hain, haty⟩, haid⟩
          · exact Or.inl hp
          · exact Or.inr (Or.inl ⟨hsu, a, hain, haty, haid.symm⟩)
          · exact Or.inr (Or.inr ⟨hst, a, hain, haty, haid.symm⟩)
      · rintro ⟨hmem, htype, hown, hscope⟩
        refine ⟨hmem, ⟨?_, ?_⟩, htype⟩
        · rcases hscope with hp | ⟨hsu, a, hain, haty, haid⟩
              | ⟨hst, a, hain, haty, haid⟩
          · exact Or.inl (Or.inl hp)
          · exact Or.inl (Or.inr ⟨hsu, a, ⟨hain, haty⟩, haid.symm⟩)
          · exact Or.inr ⟨hst, a, ⟨hain, haty⟩, haid.symm⟩
        · rcases hown with ⟨a, hain, haty, hcol⟩ | ⟨a, hain, haty, hcol⟩
          · exact Or.inl ⟨a.id, hcol, a, ⟨hain, haty⟩, rfl⟩
          · exact Or.inr ⟨a.id, hcol, a, ⟨hain, haty⟩, rfl⟩

/-- Claim C5: in the batch subscriber resolution, a recipient's parent-scoped
record, when present, decides membership in a provider's recipient set — the
recipient's own global record is never consulted.  In particular a NEVER
parent-scoped record excludes the recipient even when the global record says
ALWAYS. -/
theorem parent_scope_wins (policy : NType → Provider → Bool)
    (parentIsProject : Bool) (parentId : Nat) (recipients : List Actor)
    (t : NType) (settings : List SettingRec) (p : Provider) (a : Actor)
    (r : SettingRec)
    (hr : recordFor settings p t
        (if parentIsProject then NScope.project else NScope.organization)
        parentId a = some r) :
    a ∈ filter_to_accepting_recipients policy parentIsProject parentId
        recipients t settings p
      ↔ (a ∈ recipients ∧ r.value ≠ NValue.never) := by
  simp [filter_to_accepting_recipients, getSubscribersByProvider,
    List.mem_filter, hr]

/-- Witness for C5: the spec scenario — project 10 has a NEVER record for
EMAIL/ISSUE_ALERTS for user 5 while user 5's global record is ALWAYS; user 5
is excluded from the EMAIL recipient set. -/
theorem parent_scope_wins_witness :
    (recordFor
        [⟨1, Provider.email, NType.issueAlerts, NScope.project, 10, some 5,
          none, NValue.never⟩,
         ⟨2, Provider.email, NType.issueAlerts, NScope.user, 5, some 5, none,
          NValue.always⟩]
        Provider.email NType.issueAlerts NScope.project 10
        ⟨ActorType.user, 5⟩
      = some (⟨1, Provider.email, NType.issueAlerts, NScope.project, 10,
          some 5, none, NValue.never⟩ : SettingRec))
    ∧ ((⟨ActorType.user, 5⟩ : Actor) ∈ filter_to_accepting_recipients
          (fun _ _ => true) true 10 [⟨ActorType.user, 5⟩] NType.issueAlerts
          [⟨1, Provider.email, NType.issueAlerts, NScope.project, 10, some 5,
            none, NValue.never⟩,
           ⟨2, Provider.email, NType.issueAlerts, NScope.user, 5, some 5,
            none, NValue.always⟩] Provider.email
        ↔ ((⟨ActorType.user, 5⟩ : Actor) ∈ [(⟨ActorType.user, 5⟩ : Actor)]
            ∧ (⟨1, Provider.email, NType.issueAlerts, NScope.project, 10,
                some 5, none, NValue.never⟩ : SettingRec).value
              ≠ NValue.never)) :=
  ⟨rfl, parent_scope_wins (fun _ _ => true) true 10 [⟨ActorType.user, 5⟩]
    NType.issueAlerts
    [⟨1, Provider.email, NType.issueAlerts, NScope.project, 10, some 5, none,
      NValue.never⟩,
     ⟨2, Provider.email, NType.issueAlerts, NScope.user, 5, some 5, none,
      NValue.always⟩]
    Provider.email ⟨ActorType.user, 5⟩
    ⟨1, Provider.email, NType.issueAlerts, NScope.project, 10, some 5, none,
      NValue.never⟩ rfl⟩

/-- Claim C7: `update_settings` with a non-DEFAULT value that the fixed
compatibility table does not allow for the alert type fails with the
invalid-value error (the code raises at the `validate` check, the failure the
spec names `InvalidValueForTypeError`), and no settings row, option row or
provider-projection row is created, updated or deleted. -/
theorem update_settings_invalid_value (s : State) (provider : Provider)
    (type : NType) (value : NValue) (uid tid proj org : Option Nat)
    (skip : Bool)
    (hone : (uid.isSome ∧ tid = none) ∨ (tid.isSome ∧ uid = none))
    (hv : value ≠ NValue.default) (hinv : validate type value = false) :
    (update_settings provider type value uid tid proj org skip s).1
        = some Err.invalidValueForType
      ∧ (update_settings provider type value uid tid proj org skip s).2.settings
        = s.settings
      ∧ (update_settings provider type value uid tid proj org skip s).2.options
        = s.options
      ∧ (update_settings provider type value uid tid proj org skip
          s).2.providers = s.providers := by
  rcases hone with ⟨hs, hn⟩ | ⟨hs, hn⟩
  · obtain ⟨u, hu⟩ := Option.isSome_iff_exists.mp hs
    subst hu hn
    cases proj <;> cases org <;>
      simp [update_settings, get_scope, hv, hinv]
  · obtain ⟨tt, ht⟩ := Option.isSome_iff_exists.mp hs
    subst ht hn
    cases proj <;> cases org <;>
      simp [update_settings, get_scope, hv, hinv]

/-- Witness for C7: SUBSCRIBE_ONLY is not a valid value for ISSUE_ALERTS. -/
theorem update_settings_invalid_value_witness :
    (((some 1 : Option Nat).isSome ∧ (none : Option Nat) = none)
        ∨ ((none : Option Nat).isSome ∧ (some 1 : Option Nat) = none))
      ∧ NValue.subscribeOnly ≠ NValue.default
      ∧ validate NType.issueAlerts NValue.subscribeOnly = false
      ∧ ((update_settings Provider.email NType.issueAlerts
            NValue.subscribeOnly (some 1) none none none false
            ⟨[], [], [], [], 1⟩).1 = some Err.invalidValueForType
          ∧ (update_settings Provider.email NType.issueAlerts
              NValue.subscribeOnly (some 1) none none none false
              ⟨[], [], [], [], 1⟩).2.settings = ([] : List SettingRec)
          ∧ (update_settings Provider.email NType.issueAlerts
              NValue.subscribeOnly (some 1) none none none false
              ⟨[], [], [], [], 1⟩).2.options = ([] : List OptionRec)
          ∧ (update_settings Provider.email NType.issueAlerts
              NValue.subscribeOnly (some 1) none none none false
              ⟨[], [], [], [], 1⟩).2.providers = ([] : List ProviderRec)) :=
  ⟨Or.inl ⟨rfl, rfl⟩, by decide, by decide,
    update_settings_invalid_value ⟨[], [], [], [], 1⟩ Provider.email
      NType.issueAlerts NValue.subscribeOnly (some 1) none none none false
      (Or.inl ⟨rfl, rfl⟩) (by decide) (by decide)⟩

/-- Counterexample for C6: `find_settings` (hence `get_settings`) with both a
user id and a team id fails with a Python assertion error, not with the scope
resolver's `InvalidScopeError`. -/
theorem find_settings_both_assertion :
    find_settings Provider.email NType.issueAlerts (some 1) (some 2) none none
        = Except.error Err.assertionError
      ∧ Err.assertionError ≠ Err.invalidScope :=
  ⟨rfl, by decide⟩

/-- Claim C6 (amended): every single-recipient operation fails and leaves the
settings, option and projection tables untouched when both team and user are
given or when neither is, but the error is not uniformly `InvalidScopeError`:
`find_settings` / `get_settings` stop at an assertion error in both cases;
`update_settings` fails with the scope resolver's `InvalidScopeError` when
both are given (after silently attributing the analytics event to the team)
and with an unbound-local error when neither is given; `remove_settings`
fails with `InvalidScopeError` in both cases. -/
theorem single_recipient_guard (s : State) (provider : Provider)
    (type : NType) (value : NValue) (proj org : Option Nat) (u tt : Nat)
    (hu : u ≠ 0) (ht : tt ≠ 0) :
    (find_settings provider type (some u) (some tt) proj org
        = Except.error Err.assertionError)
    ∧ (get_settings provider type (some u) (some tt) proj org s
        = Except.error Err.assertionError)
    ∧ ((update_settings provider type value (some u) (some tt) proj org
          false s).1 = some Err.invalidScope
        ∧ (update_settings provider type value (some u) (some tt) proj org
            false s).2.settings = s.settings
        ∧ (update_settings provider type value (some u) (some tt) proj org
            false s).2.options = s.options
        ∧ (update_settings provider type value (some u) (some tt) proj org
            false s).2.providers = s.providers)
    ∧ (remove_settings provider type (some u) (some tt) proj org s
        = (some Err.invalidScope, s))
    ∧ (find_settings provider type none none proj org
        = Except.error Err.assertionError)
    ∧ (get_settings provider type none none proj org s
        = Except.error Err.assertionError)
    ∧ (update_settings provider type value none none proj org false s
        = (some Err.nameError, s))
    ∧ (remove_settings provider type none none proj org s
        = (some Err.invalidScope, s)) := by
  refine ⟨?_, ?_, ?_, ?_, ?_, ?_, ?_, ?_⟩
  · simp [find_settings, hu, ht]
  · simp [get_settings, find_settings, hu, ht]
  · simp [update_settings, get_scope]
  · simp [remove_settings, get_scope]
  · simp [find_settings]
  · simp [get_settings, find_settings]
  · simp [update_settings]
  · simp [remove_settings, get_scope]

/-- Witness for C6 (amended) at concrete ids 1 and 2 on the empty store. -/
theorem single_recipient_guard_witness :
    ((1 : Nat) ≠ 0 ∧ (2 : Nat) ≠ 0)
      ∧ ((find_settings Provider.email NType.issueAlerts (some 1) (some 2)
            none none = Except.error Err.assertionError)
        ∧ (get_settings Provider.email NType.issueAlerts (some 1) (some 2)
            none none ⟨[], [], [], [], 1⟩ = Except.error Err.assertionError)
        ∧ ((update_settings Provider.email NType.issueAlerts NValue.always
              (some 1) (some 2) none none false ⟨[], [], [], [], 1⟩).1
              = some Err.invalidScope
            ∧ (update_settings Provider.email NType.issueAlerts NValue.always
                (some 1) (some 2) none none false
                ⟨[], [], [], [], 1⟩).2.settings = ([] : List SettingRec)
            ∧ (update_settings Provider.email NType.issueAlerts NValue.always
                (some 1) (some 2) none none false
                ⟨[], [], [], [], 1⟩).2.options = ([] : List OptionRec)
            ∧ (update_settings Provider.email NType.issueAlerts NValue.always
                (some 1) (some 2) none none false
                ⟨[], [], [], [], 1⟩).2.providers = ([] : List ProviderRec))
        ∧ (remove_settings Provider.email NType.issueAlerts (some 1) (some 2)
            none none ⟨[], [], [], [], 1⟩
            = (some Err.invalidScope, ⟨[], [], [], [], 1⟩))
        ∧ (find_settings Provider.email NType.issueAlerts none none none none
            = Except.error Err.assertionError)
        ∧ (get_settings Provider.email NType.issueAlerts none none none none
            ⟨[], [], [], [], 1⟩ = Except.error Err.assertionError)
        ∧ (update_settings Provider.email NType.issueAlerts NValue.always
            none none none none false ⟨[], [], [], [], 1⟩
            = (some Err.nameError, ⟨[], [], [], [], 1⟩))
        ∧ (remove_settings Provider.email NType.issueAlerts none none none
            none ⟨[], [], [], [], 1⟩
            = (some Err.invalidScope, ⟨[], [], [], [], 1⟩))) :=
  ⟨⟨by decide, by decide⟩,
    single_recipient_guard ⟨[], [], [], [], 1⟩ Provider.email
      NType.issueAlerts NValue.always none none 1 2 (by decide) (by decide)⟩

/-- Claim C3: `get_settings` never errors on a well-formed single-recipient
key: it returns DEFAULT when no row matches the key and the value of the
first matching row in table order otherwise — also when, defensively,
several rows match — so it deterministically picks one row instead of
erroring, and two identical calls on the same store return the same value. -/
theorem get_settings_lookup (s : State) (provider : Provider) (type : NType)
    (uid tid proj org : Option Nat) (st : NScope) (si : Nat)
    (hone : (∃ u, uid = some u ∧ u ≠ 0 ∧ tid = none)
        ∨ (∃ tt, tid = some tt ∧ tt ≠ 0 ∧ uid = none))
    (hsc : get_scope tid uid proj org = Except.ok (st, si))
    (hsi : si ≠ 0) :
    (s.settings.filter (ownKey provider type st si uid tid) = [] →
        get_settings provider type uid tid proj org s
          = Except.ok NValue.default)
      ∧ (∀ (r : SettingRec) (rest : List SettingRec),
          s.settings.filter (ownKey provider type st si uid tid) = r :: rest →
            get_settings provider type uid tid proj org s
              = Except.ok r.value) := by
  rcases hone with ⟨u, hu, hu0, hn⟩ | ⟨tt, ht, ht0, hn⟩
  · subst hu hn
    have hfs : find_settings provider type (some u) none proj org
        = Except.ok (_filter (some provider) (some type) (some st) (some si)
            [u] []) := by
      simp [find_settings, hu0, hsc]
    have hpred : ∀ r ∈ s.settings,
        _filter (some provider) (some type) (some st) (some si) [u] [] r
          = ownKey provider type st si (some u) none r := by
      intro r _
      simp [_filter, ownKey, omem_singleton, omem_nil, hsi]
    constructor
    · intro hnil
      rw [← List.filter_congr hpred] at hnil
      simp [get_settings, hfs, hnil]
    · intro r rest hcons
      rw [← List.filter_congr hpred] at hcons
      simp [get_settings, hfs, hcons]
  · subst ht hn
    have hfs : find_settings provider type none (some tt) proj org
        = Except.ok (_filter (some provider) (some type) (some st) (some si)
            [] [tt]) := by
      simp [find_settings, ht0, hsc]
    have hpred : ∀ r ∈ s.settings,
        _filter (some provider) (some type) (some st) (some si) [] [tt] r
          = ownKey provider type st si none (some tt) r := by
      intro r _
      simp [_filter, ownKey, omem_singleton, omem_nil, hsi]
    constructor
    · intro hnil
      rw [← List.filter_congr hpred] at hnil
      simp [get_settings, hfs, hnil]
    · intro r rest hcons
      rw [← List.filter_congr hpred] at hcons
      simp [get_settings, hfs, hcons]

/-- Witness for C3: user 3's global EMAIL/ISSUE_ALERTS record is NEVER and is
returned; on the empty store the result is DEFAULT. -/
theorem get_settings_lookup_witness :
    ((∃ u, (some 3 : Option Nat) = some u ∧ u ≠ 0
          ∧ (none : Option Nat) = none)
        ∨ (∃ tt, (none : Option Nat) = some tt ∧ tt ≠ 0
          ∧ (some 3 : Option Nat) = none))
      ∧ get_scope none (some 3) none none = Except.ok (NScope.user, 3)
      ∧ (3 : Nat) ≠ 0
      ∧ (((⟨[⟨1, Provider.email, NType.issueAlerts, NScope.user, 3, some 3,
              none, NValue.never⟩], [], [], [], 2⟩ : State).settings.filter
            (ownKey Provider.email NType.issueAlerts NScope.user 3 (some 3)
              none) = [] →
          get_settings Provider.email NType.issueAlerts (some 3) none none
            none ⟨[⟨1, Provider.email, NType.issueAlerts, NScope.user, 3,
              some 3, none, NValue.never⟩], [], [], [], 2⟩
            = Except.ok NValue.default)
        ∧ (∀ (r : SettingRec) (rest : List SettingRec),
            (⟨[⟨1, Provider.email, NType.issueAlerts, NScope.user, 3, some 3,
                none, NValue.never⟩], [], [], [], 2⟩ : State).settings.filter
              (ownKey Provider.email NType.issueAlerts NScope.user 3 (some 3)
                none) = r :: rest →
              get_settings Provider.email NType.issueAlerts (some 3) none
                none none ⟨[⟨1, Provider.email, NType.issueAlerts,
                  NScope.user, 3, some 3, none, NValue.never⟩], [], [], [],
                  2⟩ = Except.ok r.value)) :=
  ⟨Or.inl ⟨3, rfl, by decide, rfl⟩, rfl, by decide,
    get_settings_lookup
      ⟨[⟨1, Provider.email, NType.issueAlerts, NScope.user, 3, some 3, none,
        NValue.never⟩], [], [], [], 2⟩ Provider.email NType.issueAlerts
      (some 3) none none none NScope.user 3
      (Or.inl ⟨3, rfl, by decide, rfl⟩) rfl (by decide)⟩

/-- Claim C2: for a single truthy recipient, `update_settings` with value
DEFAULT completes without error, deletes every stored settings row matching
the (provider, type, scope, recipient) key — deletion is the reset, no
explicit DEFAULT row is stored — and a subsequent `get_settings` for the same
key returns DEFAULT. -/
theorem update_settings_default_resets (s : State) (provider : Provider)
    (type : NType) (uid tid proj org : Option Nat)
    (hone : (∃ u, uid = some u ∧ u ≠ 0 ∧ tid = none)
        ∨ (∃ tt, tid = some tt ∧ tt ≠ 0 ∧ uid = none)) :
    (update_settings provider type NValue.default uid tid proj org false
        s).1 = none
      ∧ (∀ pred, find_settings provider type uid tid proj org
            = Except.ok pred →
          ∀ r ∈ (update_settings provider type NValue.default uid tid proj
              org false s).2.settings, pred r = false)
      ∧ get_settings provider type uid tid proj org
          (update_settings provider type NValue.default uid tid proj org
            false s).2 = Except.ok NValue.default := by
  rcases hone with ⟨u, hu, hu0, hn⟩ | ⟨tt, ht, ht0, hn⟩
  · subst hu hn
    obtain ⟨st, si, hsc⟩ :
        ∃ st si, get_scope none (some u) proj org = Except.ok (st, si) := by
      cases proj <;> cases org <;> exact ⟨_, _, rfl⟩
    have hfs : find_settings provider type (some u) none proj org
        = Except.ok (_filter (some provider) (some type) (some st) (some si)
            [u] []) := by
      simp [find_settings, hu0, hsc]
    have hs2 : (update_settings provider type NValue.default (some u) none
          proj org false s).2.settings
        = s.settings.filter (fun r =>
            !(_filter (some provider) (some type) (some st) (some si) [u] []
              r)) := by
      simp [update_settings, remove_settings, hsc, hfs,
        update_provider_settings, truthyOpt, hu0]
    refine ⟨?_, ?_, ?_⟩
    · simp [update_settings, remove_settings, hsc, hfs,
        update_provider_settings, truthyOpt, hu0]
    · intro pred hp
      rw [hfs] at hp
      injection hp with hp
      subst hp
      intro r hr
      rw [hs2, List.mem_filter] at hr
      simpa using hr.2
    · have hnil : ((update_settings provider type NValue.default (some u)
          none proj org false s).2.settings.filter
            (_filter (some provider) (some type) (some st) (some si) [u] []))
          = [] := by
        rw [hs2]
        apply List.filter_eq_nil_iff.mpr
        intro a ha
        rw [List.mem_filter] at ha
        simpa using ha.2
      simp [get_settings, hfs, hnil]
  · subst ht hn
    obtain ⟨st, si, hsc⟩ :
        ∃ st si, get_scope (some tt) none proj org = Except.ok (st, si) := by
      cases proj <;> cases org <;> exact ⟨_, _, rfl⟩
    have hfs : find_settings provider type none (some tt) proj org
        = Except.ok (_filter (some provider) (some type) (some st) (some si)
            [] [tt]) := by
      simp [find_settings, ht0, hsc]
    have hs2 : (update_settings provider type NValue.default none (some tt)
          proj org false s).2.settings
        = s.settings.filter (fun r =>
            !(_filter (some provider) (some type) (some st) (some si) []
              [tt] r)) := by
      simp [update_settings, remove_settings, hsc, hfs,
        update_provider_settings, truthyOpt, ht0]
    refine ⟨?_, ?_, ?_⟩
    · simp [update_settings, remove_settings, hsc, hfs,
        update_provider_settings, truthyOpt, ht0]
    · intro pred hp
      rw [hfs] at hp
      injection hp with hp
      subst hp
      intro r hr
      rw [hs2, List.mem_filter] at hr
      simpa using hr.2
    · have hnil : ((update_settings provider type NValue.default none
          (some tt) proj org false s).2.settings.filter
            (_filter (some provider) (some type) (some st) (some si) []
              [tt])) = [] := by
        rw [hs2]
        apply List.filter_eq_nil_iff.mpr
        intro a ha
        rw [List.mem_filter] at ha
        simpa using ha.2
      simp [get_settings, hfs, hnil]

/-- Witness for C2: user 4 resets EMAIL/ISSUE_ALERTS on a store holding a
matching global row. -/
theorem update_settings_default_resets_witness :
    ((∃ u, (some 4 : Option Nat) = some u ∧ u ≠ 0
          ∧ (none : Option Nat) = none)
        ∨ (∃ tt, (none : Option Nat) = some tt ∧ tt ≠ 0
          ∧ (some 4 : Option Nat) = none))
      ∧ ((update_settings Provider.email NType.issueAlerts NValue.default
            (some 4) none none none false
            ⟨[⟨1, Provider.email, NType.issueAlerts, NScope.user, 4, some 4,
              none, NValue.always⟩], [], [], [], 2⟩).1 = none
        ∧ (∀ pred, find_settings Provider.email NType.issueAlerts (some 4)
              none none none = Except.ok pred →
            ∀ r ∈ (update_settings Provider.email NType.issueAlerts
                NValue.default (some 4) none none none false
                ⟨[⟨1, Provider.email, NType.issueAlerts, NScope.user, 4,
                  some 4, none, NValue.always⟩], [], [], [],
                  2⟩).2.settings, pred r = false)
        ∧ get_settings Provider.email NType.issueAlerts (some 4) none none
            none (update_settings Provider.email NType.issueAlerts
              NValue.default (some 4) none none none false
              ⟨[⟨1, Provider.email, NType.issueAlerts, NScope.user, 4,
                some 4, none, NValue.always⟩], [], [], [], 2⟩).2
            = Except.ok NValue.default) :=
  ⟨Or.inl ⟨4, rfl, by decide, rfl⟩,
    update_settings_default_resets
      ⟨[⟨1, Provider.email, NType.issueAlerts, NScope.user, 4, some 4, none,
        NValue.always⟩], [], [], [], 2⟩ Provider.email NType.issueAlerts
      (some 4) none none none (Or.inl ⟨4, rfl, by decide, rfl⟩)⟩

theorem create_or_update_option_frame (ts sts : String) (si : Nat)
    (uid tid : Option Nat) (vs : String) (s : State) :
    (create_or_update_option ts sts si uid tid vs s).settings = s.settings
      ∧ (create_or_update_option ts sts si uid tid vs s).providers
        = s.providers
      ∧ (create_or_update_option ts sts si uid tid vs s).events = s.events
      ∧ (create_or_update_option ts sts si uid tid vs s).nextId = s.nextId
        := by
  simp only [create_or_update_option]
  split <;> simp

theorem _update_settings_create (provider : Provider) (type : NType)
    (value : NValue) (st : NScope) (si : Nat) (uid tid : Option Nat)
    (s : State)
    (hflt : s.settings.filter (settingKey provider type st si uid tid) = []) :
    _update_settings provider type value st si uid tid s
      = (none, { s with
          settings := s.settings
            ++ [⟨s.nextId, provider, type, st, si, uid, tid, value⟩],
          nextId := s.nextId + 1 }) := by
  simp [_update_settings, get_or_create, hflt]

theorem _update_settings_existing (provider : Provider) (type : NType)
    (value : NValue) (st : NScope) (si : Nat) (uid tid : Option Nat)
    (s : State) (r : SettingRec)
    (hflt : s.settings.filter (settingKey provider type st si uid tid)
      = [r]) :
    _update_settings provider type value st si uid tid s
      = if r.value = value then (none, s)
        else (none, { s with settings := s.settings.map (fun x =>
          if x.id = r.id then { x with value := value } else x) }) := by
  by_cases hveq : r.value = value <;>
    simp [_update_settings, get_or_create, hflt, hveq]

theorem update_settings_user_run (provider : Provider) (type : NType)
    (value : NValue) (u : Nat) (proj org : Option Nat) (st : NScope)
    (si : Nat) (s : State)
    (hv : value ≠ NValue.default) (hval : validate type value = true)
    (hsc : get_scope none (some u) proj org = Except.ok (st, si)) :
    update_settings provider type value (some u) none proj org false s
      = (match _update_settings provider type value st si (some u) none
            { s with events := s.events
              ++ [settingsUpdatedEvent "user" u] } with
         | (some e, s1) => (some e, s1)
         | (none, s1) => update_provider_settings (some u) none
             (create_or_update_option (NOTIFICATION_SETTING_TYPES type)
               (NOTIFICATION_SCOPE_TYPE st) si (some u) none
               (NOTIFICATION_SETTING_OPTION_VALUES value) s1)) := by
  simp [update_settings, hsc, hv, hval]

theorem update_settings_team_run (provider : Provider) (type : NType)
    (value : NValue) (tt : Nat) (proj org : Option Nat) (st : NScope)
    (si : Nat) (s : State)
    (hv : value ≠ NValue.default) (hval : validate type value = true)
    (hsc : get_scope (some tt) none proj org = Except.ok (st, si)) :
    update_settings provider type value none (some tt) proj org false s
      = (match _update_settings provider type value st si none (some tt)
            { s with events := s.events
              ++ [settingsUpdatedEvent "team" tt] } with
         | (some e, s1) => (some e, s1)
         | (none, s1) => update_provider_settings none (some tt)
             (create_or_update_option (NOTIFICATION_SETTING_TYPES type)
               (NOTIFICATION_SCOPE_TYPE st) si none (some tt)
               (NOTIFICATION_SETTING_OPTION_VALUES value) s1)) := by
  simp [update_settings, hsc, hv, hval]

/-- Counterexample for C4: two identical `update_settings` calls (user 1 sets
EMAIL/ISSUE_ALERTS to ALWAYS twice, starting from the empty store) leave a
single settings row, but the "settings updated" analytics event is recorded
on both calls — the second call fires it again. -/
theorem upsert_refires_analytics :
    ((update_settings Provider.email NType.issueAlerts NValue.always (some 1)
        none none none false ⟨[], [], [], [], 1⟩).2).events.length = 1
      ∧ ((update_settings Provider.email NType.issueAlerts NValue.always
          (some 1) none none none false
          ((update_settings Provider.email NType.issueAlerts NValue.always
            (some 1) none none none false
            ⟨[], [], [], [], 1⟩).2)).2).events.length = 2
      ∧ ((update_settings Provider.email NType.issueAlerts NValue.always
          (some 1) none none none false
          ((update_settings Provider.email NType.issueAlerts NValue.always
            (some 1) none none none false
            ⟨[], [], [], [], 1⟩).2)).2).settings.length = 1 := by
  decide

theorem ups_cou_frame (uid tid : Option Nat) (ts sts : String) (si' : Nat)
    (uid' tid' : Option Nat) (vs : String) (x : State) :
    (update_provider_settings uid tid
        (create_or_update_option ts sts si' uid' tid' vs x)).2.settings
      = x.settings
    ∧ (update_provider_settings uid tid
        (create_or_update_option ts sts si' uid' tid' vs x)).2.events
      = x.events := by
  refine ⟨?_, ?_⟩
  · exact (update_provider_settings_frame uid tid _).1.trans
      (create_or_update_option_frame ts sts si' uid' tid' vs x).1
  · exact (update_provider_settings_frame uid tid _).2.2.1.trans
      (create_or_update_option_frame ts sts si' uid' tid' vs x).2.2.1

/-- Claim C4 (amended): calling the setting upsert twice with the same
(provider, type, scope, recipient, value) is idempotent on the store — both
calls succeed, after the second call exactly one settings row exists for the
key and it holds the written value, and the second call leaves the settings
table untouched (no overwrite, since the stored value is unchanged) — but
the "settings updated" analytics event is recorded by every call, so the
second call does fire it again. -/
theorem upsert_idempotent_amended (s : State) (provider : Provider)
    (type : NType) (value : NValue) (uid tid proj org : Option Nat)
    (st : NScope) (si : Nat)
    (hone : (∃ u, uid = some u ∧ u ≠ 0 ∧ tid = none)
        ∨ (∃ tt, tid = some tt ∧ tt ≠ 0 ∧ uid = none))
    (hv : value ≠ NValue.default) (hval : validate type value = true)
    (hsc : get_scope tid uid proj org = Except.ok (st, si))
    (hkey : (s.settings.filter
        (settingKey provider type st si uid tid)).length ≤ 1) :
    (update_settings provider type value uid tid proj org false s).1 = none
      ∧ (update_settings provider type value uid tid proj org false
          (update_settings provider type value uid tid proj org false
            s).2).1 = none
      ∧ (update_settings provider type value uid tid proj org false
          (update_settings provider type value uid tid proj org false
            s).2).2.settings
        = (update_settings provider type value uid tid proj org false
            s).2.settings
      ∧ ((update_settings provider type value uid tid proj org false
          (update_settings provider type value uid tid proj org false
            s).2).2.settings.filter
          (settingKey provider type st si uid tid)).length = 1
      ∧ (∀ r ∈ (update_settings provider type value uid tid proj org false
          (update_settings provider type value uid tid proj org false
            s).2).2.settings,
          settingKey provider type st si uid tid r = true → r.value = value)
      ∧ (update_settings provider type value uid tid proj org false
          (update_settings provider type value uid tid proj org false
            s).2).2.events.length
        = (update_settings provider type value uid tid proj org false
            s).2.events.length + 1 := by
  rcases hone with ⟨u, hu, hu0, hn⟩ | ⟨tt, ht, ht0, hn⟩
  · subst hu hn
    have htruthy : (truthyOpt none || truthyOpt (some u)) = true := by
      simp [truthyOpt, hu0]
    obtain ⟨x, hcall1, ⟨w, hw, hwv⟩, hxev⟩ :
        ∃ x : State,
          update_settings provider type value (some u) none proj org false s
            = update_provider_settings (some u) none
                (create_or_update_option (NOTIFICATION_SETTING_TYPES type)
                  (NOTIFICATION_SCOPE_TYPE st) si (some u) none
                  (NOTIFICATION_SETTING_OPTION_VALUES value) x)
          ∧ (∃ w, x.settings.filter
                (settingKey provider type st si (some u) none) = [w]
              ∧ w.value = value)
          ∧ x.events = s.events
              ++ [settingsUpdatedEvent "user" u] := by
      rcases hflt : s.settings.filter
          (settingKey provider type st si (some u) none) with _ | ⟨r, rest⟩
      · refine ⟨⟨s.settings
            ++ [⟨s.nextId, provider, type, st, si, some u, none, value⟩],
            s.options, s.providers,
            s.events ++ [settingsUpdatedEvent "user" u],
            s.nextId + 1⟩, ?_,
          ⟨⟨s.nextId, provider, type, st, si, some u, none, value⟩, ?_,
            rfl⟩, rfl⟩
        · rw [update_settings_user_run provider type value u proj org st si s
            hv hval hsc]
          rw [_update_settings_create provider type value st si (some u) none
            (⟨s.settings, s.options, s.providers, s.events
              ++ [settingsUpdatedEvent "user" u], s.nextId⟩
              : State)
            hflt]
        · rw [List.filter_append, hflt]
          simp [settingKey]
      · have hlen : rest = [] := by
          rw [hflt, List.length_cons] at hkey
          exact List.length_eq_zero.mp
            (Nat.le_zero.mp (Nat.succ_le_succ_iff.mp hkey))
        subst hlen
        by_cases hveq : r.value = value
        · refine ⟨⟨s.settings, s.options, s.providers,
            s.events ++ [settingsUpdatedEvent "user" u],
            s.nextId⟩, ?_, ⟨r, hflt, hveq⟩, rfl⟩
          rw [update_settings_user_run provider type value u proj org st si
            s hv hval hsc]
          rw [_update_settings_existing provider type value st si (some u)
            none (⟨s.settings, s.options, s.providers, s.events
              ++ [settingsUpdatedEvent "user" u], s.nextId⟩
              : State)
            r hflt]
          rw [if_pos hveq]
        · refine ⟨⟨s.settings.map (fun x =>
              if x.id = r.id then { x with value := value } else x),
            s.options, s.providers,
            s.events ++ [settingsUpdatedEvent "user" u],
            s.nextId⟩, ?_, ⟨{ r with value := value }, ?_, rfl⟩, rfl⟩
          · rw [update_settings_user_run provider type value u proj org st
              si s hv hval hsc]
            rw [_update_settings_existing provider type value st si (some u)
              none (⟨s.settings, s.options, s.providers, s.events
                ++ [settingsUpdatedEvent "user" u],
                s.nextId⟩ : State) r hflt]
            rw [if_neg hveq]
          · have hkf : ∀ y : SettingRec,
                settingKey provider type st si (some u) none
                  (if y.id = r.id then { y with value := value } else y)
                = settingKey provider type st si (some u) none y := by
              intro y
              by_cases hid : y.id = r.id <;> simp [hid, settingKey]
            rw [List.filter_map]
            rw [show (settingKey provider type st si (some u) none
                  ∘ fun x => if x.id = r.id then { x with value := value }
                    else x)
                = settingKey provider type st si (some u) none
              from funext hkf]
            rw [hflt]
            simp
    have hframe := ups_cou_frame (some u) none (NOTIFICATION_SETTING_TYPES
      type) (NOTIFICATION_SCOPE_TYPE st) si (some u) none
      (NOTIFICATION_SETTING_OPTION_VALUES value) x
    have h1none : (update_settings provider type value (some u) none proj org
        false s).1 = none := by
      rw [hcall1]
      exact update_provider_settings_ok (some u) none _ htruthy
    have hs1setts : (update_settings provider type value (some u) none proj
        org false s).2.settings = x.settings := by
      rw [hcall1]; exact hframe.1
    have hs1ev : (update_settings provider type value (some u) none proj org
        false s).2.events = x.events := by
      rw [hcall1]; exact hframe.2
    have hflt1 : (update_settings provider type value (some u) none proj org
        false s).2.settings.filter
          (settingKey provider type st si (some u) none) = [w] := by
      rw [hs1setts]; exact hw
    have h2 := _update_settings_existing provider type value st si (some u)
      none { (update_settings provider type value (some u) none proj org
        false s).2 with
        events := (update_settings provider type value (some u) none proj org
          false s).2.events
          ++ [settingsUpdatedEvent "user" u] } w hflt1
    rw [if_pos hwv] at h2
    have hcall2 : update_settings provider type value (some u) none proj org
        false (update_settings provider type value (some u) none proj org
          false s).2
      = update_provider_settings (some u) none
          (create_or_update_option (NOTIFICATION_SETTING_TYPES type)
            (NOTIFICATION_SCOPE_TYPE st) si (some u) none
            (NOTIFICATION_SETTING_OPTION_VALUES value)
            { (update_settings provider type value (some u) none proj org
              false s).2 with
              events := (update_settings provider type value (some u) none
                proj org false s).2.events
                ++ [settingsUpdatedEvent "user" u] }) := by
      rw [update_settings_user_run provider type value u proj org st si _
        hv hval hsc]
      rw [h2]
    have hframe2 := ups_cou_frame (some u) none (NOTIFICATION_SETTING_TYPES
      type) (NOTIFICATION_SCOPE_TYPE st) si (some u) none
      (NOTIFICATION_SETTING_OPTION_VALUES value)
      { (update_settings provider type value (some u) none proj org false
        s).2 with
        events := (update_settings provider type value (some u) none proj
          org false s).2.events ++ [settingsUpdatedEvent "user" u] }
    have hs2setts : (update_settings provider type value (some u) none proj
        org false (update_settings provider type value (some u) none proj org
          false s).2).2.settings
        = (update_settings provider type value (some u) none proj org false
            s).2.settings := by
      rw [hcall2]; exact hframe2.1
    have hs2ev : (update_settings provider type value (some u) none proj org
        false (update_settings provider type value (some u) none proj org
          false s).2).2.events
        = (update_settings provider type value (some u) none proj org false
            s).2.events
          ++ [settingsUpdatedEvent "user" u] := by
      rw [hcall2]; exact hframe2.2
    refine ⟨h1none, ?_, hs2setts, ?_, ?_, ?_⟩
    · rw [hcall2]
      exact update_provider_settings_ok (some u) none _ htruthy
    · rw [hs2setts, hflt1]
      rfl
    · intro r hmem hkeyr
      have hrf : r ∈ (update_settings provider type value (some u) none proj
          org false (update_settings provider type value (some u) none proj
            org false s).2).2.settings.filter
            (settingKey provider type st si (some u) none) :=
        List.mem_filter.mpr ⟨hmem, hkeyr⟩
      rw [hs2setts, hflt1] at hrf
      rw [List.mem_singleton] at hrf
      rw [hrf]
      exact hwv
    · simp [hs2ev]
  · subst ht hn
    have htruthy : (truthyOpt (some tt) || truthyOpt none) = true := by
      simp [truthyOpt, ht0]
    obtain ⟨x, hcall1, ⟨w, hw, hwv⟩, hxev⟩ :
        ∃ x : State,
          update_settings provider type value none (some tt) proj org false s
            = update_provider_settings none (some tt)
                (create_or_update_option (NOTIFICATION_SETTING_TYPES type)
                  (NOTIFICATION_SCOPE_TYPE st) si none (some tt)
                  (NOTIFICATION_SETTING_OPTION_VALUES value) x)
          ∧ (∃ w, x.settings.filter
                (settingKey provider type st si none (some tt)) = [w]
              ∧ w.value = value)
          ∧ x.events = s.events
              ++ [settingsUpdatedEvent "team" tt] := by
      rcases hflt : s.settings.filter
          (settingKey provider type st si none (some tt)) with _ | ⟨r, rest⟩
      · refine ⟨⟨s.settings
            ++ [⟨s.nextId, provider, type, st, si, none, some tt, value⟩],
            s.options, s.providers,
            s.events ++ [settingsUpdatedEvent "team" tt],
            s.nextId + 1⟩, ?_,
          ⟨⟨s.nextId, provider, type, st, si, none, some tt, value⟩, ?_,
            rfl⟩, rfl⟩
        · rw [update_settings_team_run provider type value tt proj org st si
            s hv hval hsc]
          rw [_update_settings_create provider type value st si none
            (some tt)
            (⟨s.settings, s.options, s.providers, s.events
              ++ [settingsUpdatedEvent "team" tt], s.nextId⟩
              : State)
            hflt]
        · rw [List.filter_append, hflt]
          simp [settingKey]
      · have hlen : rest = [] := by
          rw [hflt, List.length_cons] at hkey
          exact List.length_eq_zero.mp
            (Nat.le_zero.mp (Nat.succ_le_succ_iff.mp hkey))
        subst hlen
        by_cases hveq : r.value = value
        · refine ⟨⟨s.settings, s.options, s.providers,
            s.events ++ [settingsUpdatedEvent "team" tt],
            s.nextId⟩, ?_, ⟨r, hflt, hveq⟩, rfl⟩
          rw [update_settings_team_run provider type value tt proj org st
            si s hv hval hsc]
          rw [_update_settings_existing provider type value st si none
            (some tt) (⟨s.settings, s.options, s.providers, s.events
              ++ [settingsUpdatedEvent "team" tt], s.nextId⟩
              : State)
            r hflt]
          rw [if_pos hveq]
        · refine ⟨⟨s.settings.map (fun x =>
              if x.id = r.id then { x with value := value } else x),
            s.options, s.providers,
            s.events ++ [settingsUpdatedEvent "team" tt],
            s.nextId⟩, ?_, ⟨{ r with value := value }, ?_, rfl⟩, rfl⟩
          · rw [update_settings_team_run provider type value tt proj org st
              si s hv hval hsc]
            rw [_update_settings_existing provider type value st si none
              (some tt) (⟨s.settings, s.options, s.providers, s.events
                ++ [settingsUpdatedEvent "team" tt],
                s.nextId⟩ : State) r hflt]
            rw [if_neg hveq]
          · have hkf : ∀ y : SettingRec,
                settingKey provider type st si none (some tt)
                  (if y.id = r.id then { y with value := value } else y)
                = settingKey provider type st si none (some tt) y := by
              intro y
              by_cases hid : y.id = r.id <;> simp [hid, settingKey]
            rw [List.filter_map]
            rw [show (settingKey provider type st si none (some tt)
                  ∘ fun x => if x.id = r.id then { x with value := value }
                    else x)
                = settingKey provider type st si none (some tt)
              from funext hkf]
            rw [hflt]
            simp
    have hframe := ups_cou_frame none (some tt) (NOTIFICATION_SETTING_TYPES
      type) (NOTIFICATION_SCOPE_TYPE st) si none (some tt)
      (NOTIFICATION_SETTING_OPTION_VALUES value) x
    have h1none : (update_settings provider type value none (some tt) proj
        org false s).1 = none := by
      rw [hcall1]
      exact update_provider_settings_ok none (some tt) _ htruthy
    have hs1setts : (update_settings provider type value none (some tt) proj
        org false s).2.settings = x.settings := by
      rw [hcall1]; exact hframe.1
    have hflt1 : (update_settings provider type value none (some tt) proj org
        false s).2.settings.filter
          (settingKey provider type st si none (some tt)) = [w] := by
      rw [hs1setts]; exact hw
    have h2 := _update_settings_existing provider type value st si none
      (some tt) { (update_settings provider type value none (some tt) proj
        org false s).2 with
        events := (update_settings provider type value none (some tt) proj
          org false s).2.events
          ++ [settingsUpdatedEvent "team" tt] } w hflt1
    rw [if_pos hwv] at h2
    have hcall2 : update_settings provider type value none (some tt) proj org
        false (update_settings provider type value none (some tt) proj org
          false s).2
      = update_provider_settings none (some tt)
          (create_or_update_option (NOTIFICATION_SETTING_TYPES type)
            (NOTIFICATION_SCOPE_TYPE st) si none (some tt)
            (NOTIFICATION_SETTING_OPTION_VALUES value)
            { (update_settings provider type value none (some tt) proj org
              false s).2 with
              events := (update_settings provider type value none (some tt)
                proj org false s).2.events
                ++ [settingsUpdatedEvent "team" tt] }) := by
      rw [update_settings_team_run provider type value tt proj org st si _
        hv hval hsc]
      rw [h2]
    have hframe2 := ups_cou_frame none (some tt) (NOTIFICATION_SETTING_TYPES
      type) (NOTIFICATION_SCOPE_TYPE st) si none (some tt)
      (NOTIFICATION_SETTING_OPTION_VALUES value)
      { (update_settings provider type value none (some tt) proj org false
        s).2 with
        events := (update_settings provider type value none (some tt) proj
          org false s).2.events ++ [settingsUpdatedEvent "team" tt] }
    have hs2setts : (update_settings provider type value none (some tt) proj
        org false (update_settings provider type value none (some tt) proj
          org false s).2).2.settings
        = (update_settings provider type value none (some tt) proj org false
            s).2.settings := by
      rw [hcall2]; exact hframe2.1
    have hs2ev : (update_settings provider type value none (some tt) proj org
        false (update_settings provider type value none (some tt) proj org
          false s).2).2.events
        = (update_settings provider type value none (some tt) proj org false
            s).2.events
          ++ [settingsUpdatedEvent "team" tt] := by
      rw [hcall2]; exact hframe2.2
    refine ⟨h1none, ?_, hs2setts, ?_, ?_, ?_⟩
    · rw [hcall2]
      exact update_provider_settings_ok none (some tt) _ htruthy
    · rw [hs2setts, hflt1]
      rfl
    · intro r hmem hkeyr
      have hrf : r ∈ (update_settings provider type value none (some tt) proj
          org false (update_settings provider type value none (some tt) proj
            org false s).2).2.settings.filter
            (settingKey provider type st si none (some tt)) :=
        List.mem_filter.mpr ⟨hmem, hkeyr⟩
      rw [hs2setts, hflt1] at hrf
      rw [List.mem_singleton] at hrf
      rw [hrf]
      exact hwv
    · simp [hs2ev]

/-- Witness for C4 (amended): user 1 writes EMAIL/ISSUE_ALERTS = ALWAYS twice
on the empty store. -/
theorem upsert_idempotent_amended_witness :
    ((∃ u, (some 1 : Option Nat) = some u ∧ u ≠ 0
          ∧ (none : Option Nat) = none)
        ∨ (∃ tt, (none : Option Nat) = some tt ∧ tt ≠ 0
          ∧ (some 1 : Option Nat) = none))
      ∧ NValue.always ≠ NValue.default
      ∧ validate NType.issueAlerts NValue.always = true
      ∧ get_scope none (some 1) none none = Except.ok (NScope.user, 1)
      ∧ ((⟨[], [], [], [], 1⟩ : State).settings.filter
          (settingKey Provider.email NType.issueAlerts NScope.user 1 (some 1)
            none)).length ≤ 1
      ∧ ((update_settings Provider.email NType.issueAlerts NValue.always
            (some 1) none none none false ⟨[], [], [], [], 1⟩).1 = none
        ∧ (update_settings Provider.email NType.issueAlerts NValue.always
            (some 1) none none none false
            (update_settings Provider.email NType.issueAlerts NValue.always
              (some 1) none none none false ⟨[], [], [], [], 1⟩).2).1 = none
        ∧ (update_settings Provider.email NType.issueAlerts NValue.always
            (some 1) none none none false
            (update_settings Provider.email NType.issueAlerts NValue.always
              (some 1) none none none false
              ⟨[], [], [], [], 1⟩).2).2.settings
          = (update_settings Provider.email NType.issueAlerts NValue.always
              (some 1) none none none false ⟨[], [], [], [], 1⟩).2.settings
        ∧ ((update_settings Provider.email NType.issueAlerts NValue.always
            (some 1) none none none false
            (update_settings Provider.email NType.issueAlerts NValue.always
              (some 1) none none none false
              ⟨[], [], [], [], 1⟩).2).2.settings.filter
            (settingKey Provider.email NType.issueAlerts NScope.user 1
              (some 1) none)).length = 1
        ∧ (∀ r ∈ (update_settings Provider.email NType.issueAlerts
            NValue.always (some 1) none none none false
            (update_settings Provider.email NType.issueAlerts NValue.always
              (some 1) none none none false
              ⟨[], [], [], [], 1⟩).2).2.settings,
            settingKey Provider.email NType.issueAlerts NScope.user 1
              (some 1) none r = true → r.value = NValue.always)
        ∧ (update_settings Provider.email NType.issueAlerts NValue.always
            (some 1) none none none false
            (update_settings Provider.email NType.issueAlerts NValue.always
              (some 1) none none none false
              ⟨[], [], [], [], 1⟩).2).2.events.length
          = (update_settings Provider.email NType.issueAlerts NValue.always
              (some 1) none none none false
              ⟨[], [], [], [], 1⟩).2.events.length + 1) :=
  ⟨Or.inl ⟨1, rfl, by decide, rfl⟩, by decide, by decide, rfl, by decide,
    upsert_idempotent_amended ⟨[], [], [], [], 1⟩ Provider.email
      NType.issueAlerts NValue.always (some 1) none none none NScope.user 1
      (Or.inl ⟨1, rfl, by decide, rfl⟩) (by decide) (by decide) rfl
      (by decide)⟩

/-! Lemmas about the projection rebuild. -/

theorem provKey_base {p : Provider} {uid tid : Option Nat} {pst : NScope}
    {psi : Nat} {t : NType} {r : ProviderRec}
    (h : provKey p uid tid pst psi t r = true) :
    baseKey p uid tid pst psi r = true ∧ r.type = t := by
  rw [provKey, Bool.and_eq_true, decide_eq_true_eq] at h
  exact h

theorem provKey_value {p : Provider} {uid tid : Option Nat} {pst : NScope}
    {psi : Nat} {t : NType} (r : ProviderRec) (v : NValue) :
    provKey p uid tid pst psi t { r with value := v }
      = provKey p uid tid pst psi t r := by
  simp [provKey, baseKey]

theorem cu_exists (rows : List ProviderRec) (p : Provider)
    (uid tid : Option Nat) (st : NScope) (si : Nat) (t : NType) (v : NValue) :
    ∃ row ∈ create_or_update_provider rows p uid tid st si t v,
      provKey p uid tid st si t row = true := by
  simp only [create_or_update_provider]
  by_cases hany : rows.any (provKey p uid tid st si t) = true
  · rw [if_pos hany]
    obtain ⟨r, hr, hkr⟩ := List.any_eq_true.mp hany
    refine ⟨{ r with value := v }, List.mem_map.mpr ⟨r, hr, ?_⟩, ?_⟩
    · rw [if_pos hkr]
    · rw [provKey_value]
      exact hkr
  · rw [if_neg hany]
    refine ⟨⟨p, t, st, si, uid, tid, v⟩, by simp, ?_⟩
    simp [provKey, baseKey]

theorem cu_value (rows : List ProviderRec) (p : Provider)
    (uid tid : Option Nat) (st : NScope) (si : Nat) (t : NType) (v : NValue) :
    ∀ row ∈ create_or_update_provider rows p uid tid st si t v,
      provKey p uid tid st si t row = true → row.value = v := by
  intro row hrow hkey
  simp only [create_or_update_provider] at hrow
  by_cases hany : rows.any (provKey p uid tid st si t) = true
  · rw [if_pos hany] at hrow
    obtain ⟨r, hr, hfr⟩ := List.mem_map.mp hrow
    by_cases hkr : provKey p uid tid st si t r = true
    · rw [if_pos hkr] at hfr
      rw [← hfr]
    · rw [if_neg hkr] at hfr
      rw [← hfr] at hkey
      exact absurd hkey hkr
  · rw [if_neg hany] at hrow
    rcases List.mem_append.mp hrow with hmem | hmem
    · exact absurd (List.any_eq_true.mpr ⟨row, hmem, hkey⟩) hany
    · rw [List.mem_singleton] at hmem
      rw [hmem]

theorem cu_other (rows : List ProviderRec) (p : Provider)
    (uid tid : Option Nat) (st : NScope) (si : Nat) (t : NType) (v : NValue)
    (row : ProviderRec) (hk : provKey p uid tid st si t row = false) :
    row ∈ create_or_update_provider rows p uid tid st si t v ↔ row ∈ rows := by
  simp only [create_or_update_provider]
  by_cases hany : rows.any (provKey p uid tid st si t) = true
  · rw [if_pos hany]
    constructor
    · intro hrow
      obtain ⟨r, hr, hfr⟩ := List.mem_map.mp hrow
      by_cases hkr : provKey p uid tid st si t r = true
      · rw [if_pos hkr] at hfr
        rw [← hfr, provKey_value] at hk
        rw [hkr] at hk
        cases hk
      · rw [if_neg hkr] at hfr
        rw [← hfr]
        exact hr
    · intro hrow
      refine List.mem_map.mpr ⟨row, hrow, ?_⟩
      rw [if_neg (by rw [hk]; exact Bool.false_ne_true)]
  · rw [if_neg hany]
    rw [List.mem_append, List.mem_singleton]
    constructor
    · rintro (h | h)
      · exact h
      · rw [h] at hk
        simp [provKey, baseKey] at hk
    · exact Or.inl

theorem loop_cons_en {en dis : NType → Bool} {t : NType} (p : Provider)
    (uid tid : Option Nat) (pst : NScope) (psi : Nat) (ts : List NType)
    (rows : List ProviderRec) (dels : List NType) (hen : en t = true) :
    providerTypesLoop en dis p uid tid pst psi (t :: ts) rows dels
      = providerTypesLoop en dis p uid tid pst psi ts
          (create_or_update_provider rows p uid tid pst psi t NValue.always)
          dels := by
  simp [providerTypesLoop, hen]

theorem loop_cons_dis {en dis : NType → Bool} {t : NType} (p : Provider)
    (uid tid : Option Nat) (pst : NScope) (psi : Nat) (ts : List NType)
    (rows : List ProviderRec) (dels : List NType) (hen : en t = false)
    (hdis : dis t = true) :
    providerTypesLoop en dis p uid tid pst psi (t :: ts) rows dels
      = providerTypesLoop en dis p uid tid pst psi ts
          (create_or_update_provider rows p uid tid pst psi t NValue.never)
          dels := by
  simp [providerTypesLoop, hen, hdis]

theorem loop_cons_skip {en dis : NType → Bool} {t : NType} (p : Provider)
    (uid tid : Option Nat) (pst : NScope) (psi : Nat) (ts : List NType)
    (rows : List ProviderRec) (dels : List NType) (hen : en t = false)
    (hdis : dis t = false) :
    providerTypesLoop en dis p uid tid pst psi (t :: ts) rows dels
      = providerTypesLoop en dis p uid tid pst psi ts rows (dels ++ [t]) := by
  simp [providerTypesLoop, hen, hdis]

theorem loop_dels (en dis : NType → Bool) (p : Provider)
    (uid tid : Option Nat) (pst : NScope) (psi : Nat) :
    ∀ (ts : List NType) (rows : List ProviderRec) (dels : List NType),
      (providerTypesLoop en dis p uid tid pst psi ts rows dels).2
        = dels ++ ts.filter (fun t => !(en t) && !(dis t)) := by
  intro ts
  induction ts with
  | nil => intro rows dels; simp [providerTypesLoop]
  | cons t ts ih =>
    intro rows dels
    by_cases hen : en t = true
    · rw [loop_cons_en p uid tid pst psi ts rows dels hen, ih]
      simp [hen]
    · rw [Bool.not_eq_true] at hen
      by_cases hdis : dis t = true
      · rw [loop_cons_dis p uid tid pst psi ts rows dels hen hdis, ih]
        simp [hen, hdis]
      · rw [Bool.not_eq_true] at hdis
        rw [loop_cons_skip p uid tid pst psi ts rows dels hen hdis, ih]
        simp [hen, hdis]

theorem loop_preserve (en dis : NType → Bool) (p : Provider)
    (uid tid : Option Nat) (pst : NScope) (psi : Nat) :
    ∀ (ts : List NType) (rows : List ProviderRec) (dels : List NType)
      (row : ProviderRec),
      (baseKey p uid tid pst psi row = true → row.type ∉ ts) →
      (row ∈ (providerTypesLoop en dis p uid tid pst psi ts rows dels).1
        ↔ row ∈ rows) := by
  intro ts
  induction ts with
  | nil => intro rows dels row _; simp [providerTypesLoop]
  | cons t ts ih =>
    intro rows dels row hrow
    have hrow' : baseKey p uid tid pst psi row = true → row.type ∉ ts := by
      intro hb
      exact fun hmem => hrow hb (List.mem_cons_of_mem t hmem)
    have hkt : provKey p uid tid pst psi t row = false := by
      by_cases hb : baseKey p uid tid pst psi row = true
      · have : row.type ≠ t := by
          intro hteq
          exact hrow hb (hteq ▸ List.mem_cons_self t ts)
        simp [provKey, hb, this]
      · simp only [Bool.not_eq_true] at hb
        simp [provKey, hb]
    by_cases hen : en t = true
    · rw [loop_cons_en p uid tid pst psi ts rows dels hen]
      rw [ih _ _ row hrow']
      exact cu_other rows p uid tid pst psi t NValue.always row hkt
    · rw [Bool.not_eq_true] at hen
      by_cases hdis : dis t = true
      · rw [loop_cons_dis p uid tid pst psi ts rows dels hen hdis]
        rw [ih _ _ row hrow']
        exact cu_other rows p uid tid pst psi t NValue.never row hkt
      · rw [Bool.not_eq_true] at hdis
        rw [loop_cons_skip p uid tid pst psi ts rows dels hen hdis]
        exact ih _ _ row hrow'

theorem loop_write (en dis : NType → Bool) (p : Provider)
    (uid tid : Option Nat) (pst : NScope) (psi : Nat) :
    ∀ (ts : List NType) (rows : List ProviderRec) (dels : List NType)
      (t0 : NType) (v : NValue), t0 ∈ ts →
      ((en t0 = true ∧ v = NValue.always)
        ∨ (en t0 = false ∧ dis t0 = true ∧ v = NValue.never)) →
      ((∃ row ∈ (providerTypesLoop en dis p uid tid pst psi ts rows dels).1,
          provKey p uid tid pst psi t0 row = true)
        ∧ (∀ row ∈ (providerTypesLoop en dis p uid tid pst psi ts rows
            dels).1, provKey p uid tid pst psi t0 row = true →
            row.value = v)) := by
  intro ts
  induction ts with
  | nil => intro rows dels t0 v h; cases h
  | cons t ts ih =>
    intro rows dels t0 v hmem hv
    by_cases hts : t0 ∈ ts
    · -- the tail re-establishes the fact whatever the head step does
      by_cases hen : en t = true
      · rw [loop_cons_en p uid tid pst psi ts rows dels hen]
        exact ih _ _ t0 v hts hv
      · rw [Bool.not_eq_true] at hen
        by_cases hdis : dis t = true
        · rw [loop_cons_dis p uid tid pst psi ts rows dels hen hdis]
          exact ih _ _ t0 v hts hv
        · rw [Bool.not_eq_true] at hdis
          rw [loop_cons_skip p uid tid pst psi ts rows dels hen hdis]
          exact ih _ _ t0 v hts hv
    · -- the head is the write for t0; the tail leaves its rows alone
      have ht0 : t0 = t := by
        rcases List.mem_cons.mp hmem with h | h
        · exact h
        · exact absurd h hts
      subst ht0
      have hpres : ∀ row : ProviderRec,
          provKey p uid tid pst psi t0 row = true →
          (row ∈ (providerTypesLoop en dis p uid tid pst psi ts
              (create_or_update_provider rows p uid tid pst psi t0 v)
              dels).1
            ↔ row ∈ create_or_update_provider rows p uid tid pst psi t0 v)
          := by
        intro row hkey
        refine loop_preserve en dis p uid tid pst psi ts _ dels row ?_
        intro _
        rw [(provKey_base hkey).2]
        exact hts
      have hstep : providerTypesLoop en dis p uid tid pst psi (t0 :: ts) rows
          dels = providerTypesLoop en dis p uid tid pst psi ts
            (create_or_update_provider rows p uid tid pst psi t0 v) dels := by
        rcases hv with ⟨hen, hveq⟩ | ⟨hen, hdis, hveq⟩
        · subst hveq
          exact loop_cons_en p uid tid pst psi ts rows dels hen
        · subst hveq
          exact loop_cons_dis p uid tid pst psi ts rows dels hen hdis
      rw [hstep]
      constructor
      · obtain ⟨w, hw, hwk⟩ := cu_exists rows p uid tid pst psi t0 v
        exact ⟨w, (hpres w hwk).mpr hw, hwk⟩
      · intro row hrow hkey
        exact cu_value rows p uid tid pst psi t0 v row
          ((hpres row hkey).mp hrow) hkey

theorem loop_skip (en dis : NType → Bool) (p : Provider)
    (uid tid : Option Nat) (pst : NScope) (psi : Nat) :
    ∀ (ts : List NType) (rows : List ProviderRec) (dels : List NType)
      (t0 : NType), en t0 = false → dis t0 = false →
      ∀ row : ProviderRec, provKey p uid tid pst psi t0 row = true →
      (row ∈ (providerTypesLoop en dis p uid tid pst psi ts rows dels).1
        ↔ row ∈ rows) := by
  intro ts
  induction ts with
  | nil => intro rows dels t0 _ _ row _; simp [providerTypesLoop]
  | cons t ts ih =>
    intro rows dels t0 hen0 hdis0 row hkey
    by_cases hen : en t = true
    · have htne : t0 ≠ t := by
        intro h
        rw [h] at hen0
        rw [hen0] at hen
        cases hen
      have hkt : provKey p uid tid pst psi t row = false := by
        rcases provKey_base hkey with ⟨hb, hty⟩
        simp [provKey, hb, hty, htne]
      rw [loop_cons_en p uid tid pst psi ts rows dels hen]
      rw [ih _ _ t0 hen0 hdis0 row hkey]
      exact cu_other rows p uid tid pst psi t NValue.always row hkt
    · rw [Bool.not_eq_true] at hen
      by_cases hdis : dis t = true
      · have htne : t0 ≠ t := by
          intro h
          rw [h] at hdis0
          rw [hdis0] at hdis
          cases hdis
        have hkt : provKey p uid tid pst psi t row = false := by
          rcases provKey_base hkey with ⟨hb, hty⟩
          simp [provKey, hb, hty, htne]
        rw [loop_cons_dis p uid tid pst psi ts rows dels hen hdis]
        rw [ih _ _ t0 hen0 hdis0 row hkey]
        exact cu_other rows p uid tid pst psi t NValue.never row hkt
      · rw [Bool.not_eq_true] at hdis
        rw [loop_cons_skip p uid tid pst psi ts rows dels hen hdis]
        exact ih _ _ t0 hen0 hdis0 row hkey

theorem baseKey_fields {p : Provider} {uid tid : Option Nat} {pst : NScope}
    {psi : Nat} {r : ProviderRec} (h : baseKey p uid tid pst psi r = true) :
    r.provider = p ∧ r.user_id = uid ∧ r.team_id = tid ∧ r.scope_type = pst
      ∧ r.scope_identifier = psi := by
  rw [baseKey] at h
  simp only [Bool.and_eq_true, decide_eq_true_eq] at h
  exact ⟨h.1.1.1.1, h.1.1.1.2, h.1.1.2, h.1.2, h.2⟩

theorem pp_write (en dis : NType → Provider → Bool) (uid tid : Option Nat)
    (pst : NScope) (psi : Nat) (rows : List ProviderRec) (p : Provider)
    (t0 : NType) (v : NValue) (ht0 : t0 ∈ VALID_TYPE_KEYS)
    (hv : (en t0 p = true ∧ v = NValue.always)
      ∨ (en t0 p = false ∧ dis t0 p = true ∧ v = NValue.never)) :
    (∃ row ∈ processProvider en dis uid tid pst psi rows p,
        provKey p uid tid pst psi t0 row = true)
      ∧ (∀ row ∈ processProvider en dis uid tid pst psi rows p,
          provKey p uid tid pst psi t0 row = true → row.value = v) := by
  obtain ⟨⟨w, hw, hwk⟩, hval⟩ := loop_write (fun t => en t p)
    (fun t => dis t p) p uid tid pst psi VALID_TYPE_KEYS rows [] t0 v ht0
    (by rcases hv with ⟨h1, h2⟩ | ⟨h1, h2, h3⟩
        · exact Or.inl ⟨h1, h2⟩
        · exact Or.inr ⟨h1, h2, h3⟩)
  have ht0d : t0 ∉ (providerTypesLoop (fun t => en t p) (fun t => dis t p) p
      uid tid pst psi VALID_TYPE_KEYS rows []).2 := by
    rw [loop_dels]
    rcases hv with ⟨h1, _⟩ | ⟨_, h2, _⟩
    · simp [List.mem_filter, h1]
    · simp [List.mem_filter, h2]
  constructor
  · refine ⟨w, ?_, hwk⟩
    simp only [processProvider]
    rw [List.mem_filter]
    refine ⟨hw, ?_⟩
    rw [(provKey_base hwk).2]
    simp [ht0d]
  · intro row hrow hkey
    simp only [processProvider] at hrow
    rw [List.mem_filter] at hrow
    exact hval row hrow.1 hkey

theorem pp_none (en dis : NType → Provider → Bool) (uid tid : Option Nat)
    (pst : NScope) (psi : Nat) (rows : List ProviderRec) (p : Provider)
    (t0 : NType) (ht0 : t0 ∈ VALID_TYPE_KEYS) (hen : en t0 p = false)
    (hdis : dis t0 p = false) :
    ∀ row ∈ processProvider en dis uid tid pst psi rows p,
      provKey p uid tid pst psi t0 row = false := by
  intro row hrow
  cases hkey : provKey p uid tid pst psi t0 row with
  | false => rfl
  | true =>
    exfalso
    simp only [processProvider] at hrow
    rw [List.mem_filter] at hrow
    have hcond := hrow.2
    rcases provKey_base hkey with ⟨hb, hty⟩
    have ht0d : t0 ∈ (providerTypesLoop (fun t => en t p)
        (fun t => dis t p) p uid tid pst psi VALID_TYPE_KEYS rows []).2 := by
      rw [loop_dels]
      simp [List.mem_filter, ht0, hen, hdis]
    rw [hb, hty] at hcond
    simp [ht0d] at hcond

theorem pp_preserve (en dis : NType → Provider → Bool) (uid tid : Option Nat)
    (pst : NScope) (psi : Nat) (rows : List ProviderRec) (p : Provider)
    (row : ProviderRec) (hprov : row.provider ≠ p) :
    row ∈ processProvider en dis uid tid pst psi rows p ↔ row ∈ rows := by
  have hb : baseKey p uid tid pst psi row = false := by
    simp [baseKey, hprov]
  simp only [processProvider]
  rw [List.mem_filter]
  rw [loop_preserve (fun t => en t p) (fun t => dis t p) p uid tid pst psi
    VALID_TYPE_KEYS rows [] row (by intro h; rw [hb] at h; cases h)]
  simp [hb]

theorem fold_preserve (en dis : NType → Provider → Bool)
    (uid tid : Option Nat) (pst : NScope) (psi : Nat) :
    ∀ (ps : List Provider) (rows : List ProviderRec) (row : ProviderRec),
      row.provider ∉ ps →
      (row ∈ ps.foldl (processProvider en dis uid tid pst psi) rows
        ↔ row ∈ rows) := by
  intro ps
  induction ps with
  | nil => intro rows row _; simp
  | cons p ps ih =>
    intro rows row hprov
    rw [List.foldl_cons]
    rw [ih _ row (fun h => hprov (List.mem_cons_of_mem p h))]
    exact pp_preserve en dis uid tid pst psi rows p row
      (fun h => hprov (h ▸ List.mem_cons_self p ps))

theorem fold_spec (en dis : NType → Provider → Bool) (uid tid : Option Nat)
    (pst : NScope) (psi : Nat) :
    ∀ (ps : List Provider) (rows : List ProviderRec) (p0 : Provider)
      (t0 : NType), p0 ∈ ps → t0 ∈ VALID_TYPE_KEYS →
      ((en t0 p0 = true →
          (∃ row ∈ ps.foldl (processProvider en dis uid tid pst psi) rows,
            provKey p0 uid tid pst psi t0 row = true)
          ∧ (∀ row ∈ ps.foldl (processProvider en dis uid tid pst psi) rows,
              provKey p0 uid tid pst psi t0 row = true →
                row.value = NValue.always))
        ∧ (en t0 p0 = false → dis t0 p0 = true →
          (∃ row ∈ ps.foldl (processProvider en dis uid tid pst psi) rows,
            provKey p0 uid tid pst psi t0 row = true)
          ∧ (∀ row ∈ ps.foldl (processProvider en dis uid tid pst psi) rows,
              provKey p0 uid tid pst psi t0 row = true →
                row.value = NValue.never))
        ∧ (en t0 p0 = false → dis t0 p0 = false →
          ∀ row ∈ ps.foldl (processProvider en dis uid tid pst psi) rows,
            provKey p0 uid tid pst psi t0 row = false)) := by
  intro ps
  induction ps with
  | nil => intro rows p0 t0 h; cases h
  | cons p ps ih =>
    intro rows p0 t0 hp0 ht0
    by_cases hps : p0 ∈ ps
    · rw [List.foldl_cons]
      exact ih _ p0 t0 hps ht0
    · have hp0p : p0 = p := by
        rcases List.mem_cons.mp hp0 with h | h
        · exact h
        · exact absurd h hps
      subst hp0p
      rw [List.foldl_cons]
      have htrans : ∀ row : ProviderRec,
          provKey p0 uid tid pst psi t0 row = true →
          (row ∈ ps.foldl (processProvider en dis uid tid pst psi)
              (processProvider en dis uid tid pst psi rows p0)
            ↔ row ∈ processProvider en dis uid tid pst psi rows p0) := by
        intro row hkey
        refine fold_preserve en dis uid tid pst psi ps _ row ?_
        rw [(baseKey_fields (provKey_base hkey).1).1]
        exact hps
      refine ⟨?_, ?_, ?_⟩
      · intro hen
        obtain ⟨⟨w, hw, hwk⟩, hval⟩ := pp_write en dis uid tid pst psi rows
          p0 t0 NValue.always ht0 (Or.inl ⟨hen, rfl⟩)
        refine ⟨⟨w, (htrans w hwk).mpr hw, hwk⟩, ?_⟩
        intro row hrow hkey
        exact hval row ((htrans row hkey).mp hrow) hkey
      · intro hen hdis
        obtain ⟨⟨w, hw, hwk⟩, hval⟩ := pp_write en dis uid tid pst psi rows
          p0 t0 NValue.never ht0 (Or.inr ⟨hen, hdis, rfl⟩)
        refine ⟨⟨w, (htrans w hwk).mpr hw, hwk⟩, ?_⟩
        intro row hrow hkey
        exact hval row ((htrans row hkey).mp hrow) hkey
      · intro hen hdis row hrow
        cases hkey : provKey p0 uid tid pst psi t0 row with
        | false => rfl
        | true =>
          exfalso
          have hmem := (htrans row hkey).mp hrow
          have := pp_none en dis uid tid pst psi rows p0 t0 ht0 hen hdis row
            hmem
          rw [hkey] at this
          cases this

theorem ownScope_cases (uid tid : Option Nat) :
    ownScope uid tid = NScope.user ∨ ownScope uid tid = NScope.team := by
  by_cases h : tid.isSome <;> simp [ownScope, h]

theorem ups_providers (uid tid : Option Nat) (s : State)
    (ht : (truthyOpt tid || truthyOpt uid) = true) :
    (update_provider_settings uid tid s).2.providers
      = PERSONAL_NOTIFICATION_PROVIDERS.foldl
          (processProvider
            (fun t p => (s.settings.filter (fun r =>
              decide (r.user_id = uid) && decide (r.team_id = tid)
                && (decide (r.scope_type = NScope.user)
                    || decide (r.scope_type = NScope.team)))).any (fun r =>
              decide (r.type = t) && decide (r.provider = p)
                && decide (r.value ≠ NValue.never)))
            (fun t p => (s.settings.filter (fun r =>
              decide (r.user_id = uid) && decide (r.team_id = tid)
                && (decide (r.scope_type = NScope.user)
                    || decide (r.scope_type = NScope.team)))).any (fun r =>
              decide (r.type = t) && decide (r.provider = p)
                && decide (r.value = NValue.never)))
            uid tid (ownScope uid tid) (ownId uid tid)) s.providers := by
  simp [update_provider_settings, ht, ownScope, ownId]

/-- Claim C1: after `update_provider_settings` for a single recipient — under
the data-model invariants that own-scope rows carry the recipient's own scope
pair, that no explicit DEFAULT row is stored, and that the uniqueness
constraint holds — a projection row for (recipient, type, provider) over the
fixed type table and provider catalog exists iff the recipient has an
own-scope settings record for that (provider, type) with value ≠ DEFAULT, and
such a row holds ALWAYS iff that record's value ≠ NEVER and NEVER iff the
record's value = NEVER.  Only the recipient's own-scope records feed the
projection: the rebuild reads rows with the recipient's id at USER/TEAM scope
only. -/
theorem update_provider_settings_projection (s : State)
    (uid tid : Option Nat)
    (hone : (∃ u, uid = some u ∧ u ≠ 0 ∧ tid = none)
        ∨ (∃ tt, tid = some tt ∧ tt ≠ 0 ∧ uid = none))
    (hwf : ∀ r ∈ s.settings, r.user_id = uid → r.team_id = tid →
        (r.scope_type = NScope.user ∨ r.scope_type = NScope.team) →
        r.scope_type = ownScope uid tid ∧ r.scope_identifier = ownId uid tid)
    (hnd : ∀ r ∈ s.settings, r.value ≠ NValue.default)
    (huniq : ∀ r1 ∈ s.settings, ∀ r2 ∈ s.settings,
        r1.user_id = uid → r1.team_id = tid
        → (r1.scope_type = NScope.user ∨ r1.scope_type = NScope.team)
        → r2.user_id = uid → r2.team_id = tid
        → (r2.scope_type = NScope.user ∨ r2.scope_type = NScope.team)
        → r1.provider = r2.provider → r1.type = r2.type → r1 = r2) :
    (update_provider_settings uid tid s).1 = none
      ∧ ∀ t ∈ VALID_TYPE_KEYS, ∀ p ∈ PERSONAL_NOTIFICATION_PROVIDERS,
        ((∃ row ∈ (update_provider_settings uid tid s).2.providers,
            provKey p uid tid (ownScope uid tid) (ownId uid tid) t row
              = true)
          ↔ (∃ r ∈ s.settings, r.user_id = uid ∧ r.team_id = tid
              ∧ r.scope_type = ownScope uid tid
              ∧ r.scope_identifier = ownId uid tid
              ∧ r.provider = p ∧ r.type = t ∧ r.value ≠ NValue.default))
        ∧ (∀ row ∈ (update_provider_settings uid tid s).2.providers,
            provKey p uid tid (ownScope uid tid) (ownId uid tid) t row
                = true →
            ∀ r ∈ s.settings, r.user_id = uid → r.team_id = tid →
              r.scope_type = ownScope uid tid →
              r.scope_identifier = ownId uid tid →
              r.provider = p → r.type = t →
              ((row.value = NValue.always ↔ r.value ≠ NValue.never)
                ∧ (row.value = NValue.never ↔ r.value = NValue.never))) := by
  have ht : (truthyOpt tid || truthyOpt uid) = true := by
    rcases hone with ⟨u, hu, hu0, hn⟩ | ⟨tt, htt, ht0, hn⟩
    · subst hu hn
      simp [truthyOpt, hu0]
    · subst htt hn
      simp [truthyOpt, ht0]
  refine ⟨update_provider_settings_ok uid tid s ht, ?_⟩
  intro t htK p hpP
  have hosc := ownScope_cases uid tid
  have hprov := ups_providers uid tid s ht
  have hspec := fold_spec
      (fun t p => (s.settings.filter (fun r =>
        decide (r.user_id = uid) && decide (r.team_id = tid)
          && (decide (r.scope_type = NScope.user)
              || decide (r.scope_type = NScope.team)))).any (fun r =>
        decide (r.type = t) && decide (r.provider = p)
          && decide (r.value ≠ NValue.never)))
      (fun t p => (s.settings.filter (fun r =>
        decide (r.user_id = uid) && decide (r.team_id = tid)
          && (decide (r.scope_type = NScope.user)
              || decide (r.scope_type = NScope.team)))).any (fun r =>
        decide (r.type = t) && decide (r.provider = p)
          && decide (r.value = NValue.never)))
      uid tid (ownScope uid tid) (ownId uid tid)
      PERSONAL_NOTIFICATION_PROVIDERS s.providers p t hpP htK
  rw [← hprov] at hspec
  have hdec : ∀ P : SettingRec → Bool,
      ((s.settings.filter (fun r =>
          decide (r.user_id = uid) && decide (r.team_id = tid)
            && (decide (r.scope_type = NScope.user)
                || decide (r.scope_type = NScope.team)))).any P = true
        ↔ ∃ r ∈ s.settings,
            (r.user_id = uid ∧ r.team_id = tid
              ∧ (r.scope_type = NScope.user ∨ r.scope_type = NScope.team))
            ∧ P r = true) := by
    intro P
    rw [List.any_eq_true]
    constructor
    · rintro ⟨r, hr, hP⟩
      rw [List.mem_filter] at hr
      refine ⟨r, hr.1, ?_, hP⟩
      have h2 := hr.2
      simp only [Bool.and_eq_true, Bool.or_eq_true, decide_eq_true_eq] at h2
      exact ⟨h2.1.1, h2.1.2, h2.2⟩
    · rintro ⟨r, hr, ⟨h1, h2, h3⟩, hP⟩
      refine ⟨r, List.mem_filter.mpr ⟨hr, ?_⟩, hP⟩
      simp only [Bool.and_eq_true, Bool.or_eq_true, decide_eq_true_eq]
      exact ⟨⟨h1, h2⟩, h3⟩
  constructor
  · by_cases hen : (s.settings.filter (fun r =>
        decide (r.user_id = uid) && decide (r.team_id = tid)
          && (decide (r.scope_type = NScope.user)
              || decide (r.scope_type = NScope.team)))).any (fun r =>
        decide (r.type = t) && decide (r.provider = p)
          && decide (r.value ≠ NValue.never)) = true
    · refine iff_of_true (hspec.1 hen).1 ?_
      obtain ⟨r, hr, hc, hP⟩ := (hdec _).mp hen
      simp only [Bool.and_eq_true, decide_eq_true_eq] at hP
      obtain ⟨hsc1, hsc2⟩ := hwf r hr hc.1 hc.2.1 hc.2.2
      exact ⟨r, hr, hc.1, hc.2.1, hsc1, hsc2, hP.1.2, hP.1.1, hnd r hr⟩
    · have hen' : (s.settings.filter (fun r =>
          decide (r.user_id = uid) && decide (r.team_id = tid)
            && (decide (r.scope_type = NScope.user)
                || decide (r.scope_type = NScope.team)))).any (fun r =>
          decide (r.type = t) && decide (r.provider = p)
            && decide (r.value ≠ NValue.never)) = false :=
        Bool.eq_false_iff.mpr hen
      by_cases hdis : (s.settings.filter (fun r =>
          decide (r.user_id = uid) && decide (r.team_id = tid)
            && (decide (r.scope_type = NScope.user)
                || decide (r.scope_type = NScope.team)))).any (fun r =>
          decide (r.type = t) && decide (r.provider = p)
            && decide (r.value = NValue.never)) = true
      · refine iff_of_true (hspec.2.1 hen' hdis).1 ?_
        obtain ⟨r, hr, hc, hP⟩ := (hdec _).mp hdis
        simp only [Bool.and_eq_true, decide_eq_true_eq] at hP
        obtain ⟨hsc1, hsc2⟩ := hwf r hr hc.1 hc.2.1 hc.2.2
        exact ⟨r, hr, hc.1, hc.2.1, hsc1, hsc2, hP.1.2, hP.1.1, hnd r hr⟩
      · have hdis' : (s.settings.filter (fun r =>
            decide (r.user_id = uid) && decide (r.team_id = tid)
              && (decide (r.scope_type = NScope.user)
                  || decide (r.scope_type = NScope.team)))).any (fun r =>
            decide (r.type = t) && decide (r.provider = p)
              && decide (r.value = NValue.never)) = false :=
          Bool.eq_false_iff.mpr hdis
        apply iff_of_false
        · rintro ⟨row, hrow, hkey⟩
          have hno := hspec.2.2 hen' hdis' row hrow
          rw [hkey] at hno
          cases hno
        · rintro ⟨r, hr, h1, h2, h3, h4, h5, h6, _⟩
          have hcf : r.scope_type = NScope.user
              ∨ r.scope_type = NScope.team := by
            rw [h3]; exact hosc
          by_cases hv : r.value = NValue.never
          · apply hdis
            refine (hdec _).mpr ⟨r, hr, ⟨h1, h2, hcf⟩, ?_⟩
            simp only [Bool.and_eq_true, decide_eq_true_eq]
            exact ⟨⟨h6, h5⟩, hv⟩
          · apply hen
            refine (hdec _).mpr ⟨r, hr, ⟨h1, h2, hcf⟩, ?_⟩
            simp only [Bool.and_eq_true, decide_eq_true_eq]
            exact ⟨⟨h6, h5⟩, hv⟩
  · intro row hrow hkey r hr h1 h2 h3 h4 h5 h6
    have hcf : r.scope_type = NScope.user ∨ r.scope_type = NScope.team := by
      rw [h3]; exact hosc
    by_cases hv : r.value = NValue.never
    · have hdis : (s.settings.filter (fun r =>
          decide (r.user_id = uid) && decide (r.team_id = tid)
            && (decide (r.scope_type = NScope.user)
                || decide (r.scope_type = NScope.team)))).any (fun r =>
          decide (r.type = t) && decide (r.provider = p)
            && decide (r.value = NValue.never)) = true := by
        refine (hdec _).mpr ⟨r, hr, ⟨h1, h2, hcf⟩, ?_⟩
        simp only [Bool.and_eq_true, decide_eq_true_eq]
        exact ⟨⟨h6, h5⟩, hv⟩
      have hen' : (s.settings.filter (fun r =>
          decide (r.user_id = uid) && decide (r.team_id = tid)
            && (decide (r.scope_type = NScope.user)
                || decide (r.scope_type = NScope.team)))).any (fun r =>
          decide (r.type = t) && decide (r.provider = p)
            && decide (r.value ≠ NValue.never)) = false := by
        apply Bool.eq_false_iff.mpr
        intro hcontra
        obtain ⟨r2, hr2, hc2, hP2⟩ := (hdec _).mp hcontra
        simp only [Bool.and_eq_true, decide_eq_true_eq] at hP2
        have heq := huniq r2 hr2 r hr hc2.1 hc2.2.1 hc2.2.2 h1 h2 hcf
          (by rw [hP2.1.2, h5]) (by rw [hP2.1.1, h6])
        rw [heq] at hP2
        exact hP2.2 hv
      have hrowv := (hspec.2.1 hen' hdis).2 row hrow hkey
      constructor
      · constructor
        · intro ha
          rw [hrowv] at ha
          cases ha
        · intro hne
          exact absurd hv hne
      · exact iff_of_true hrowv hv
    · have hen : (s.settings.filter (fun r =>
          decide (r.user_id = uid) && decide (r.team_id = tid)
            && (decide (r.scope_type = NScope.user)
                || decide (r.scope_type = NScope.team)))).any (fun r =>
          decide (r.type = t) && decide (r.provider = p)
            && decide (r.value ≠ NValue.never)) = true := by
        refine (hdec _).mpr ⟨r, hr, ⟨h1, h2, hcf⟩, ?_⟩
        simp only [Bool.and_eq_true, decide_eq_true_eq]
        exact ⟨⟨h6, h5⟩, hv⟩
      have hrowv := (hspec.1 hen).2 row hrow hkey
      constructor
      · exact iff_of_true hrowv hv
      · constructor
        · intro hne
          rw [hrowv] at hne
          cases hne
        · intro h
          exact absurd h hv

/-- Witness for C1: user 7 owns a single global EMAIL/ISSUE_ALERTS = ALWAYS
record; the rebuilt projection is characterized by the theorem. -/
theorem update_provider_settings_projection_witness :
    ((∃ u, (some 7 : Option Nat) = some u ∧ u ≠ 0
          ∧ (none : Option Nat) = none)
        ∨ (∃ tt, (none : Option Nat) = some tt ∧ tt ≠ 0
          ∧ (some 7 : Option Nat) = none))
      ∧ (∀ r ∈ (⟨[⟨1, Provider.email, NType.issueAlerts, NScope.user, 7,
            some 7, none, NValue.always⟩], [], [], [], 2⟩ : State).settings,
          r.user_id = some 7 → r.team_id = none →
          (r.scope_type = NScope.user ∨ r.scope_type = NScope.team) →
          r.scope_type = ownScope (some 7) none
            ∧ r.scope_identifier = ownId (some 7) none)
      ∧ (∀ r ∈ (⟨[⟨1, Provider.email, NType.issueAlerts, NScope.user, 7,
            some 7, none, NValue.always⟩], [], [], [], 2⟩ : State).settings,
          r.value ≠ NValue.default)
      ∧ ((update_provider_settings (some 7) none
            ⟨[⟨1, Provider.email, NType.issueAlerts, NScope.user, 7, some 7,
              none, NValue.always⟩], [], [], [], 2⟩).1 = none
        ∧ ∀ t ∈ VALID_TYPE_KEYS, ∀ p ∈ PERSONAL_NOTIFICATION_PROVIDERS,
          ((∃ row ∈ (update_provider_settings (some 7) none
              ⟨[⟨1, Provider.email, NType.issueAlerts, NScope.user, 7,
                some 7, none, NValue.always⟩], [], [], [],
                2⟩).2.providers,
              provKey p (some 7) none (ownScope (some 7) none)
                (ownId (some 7) none) t row = true)
            ↔ (∃ r ∈ (⟨[⟨1, Provider.email, NType.issueAlerts, NScope.user,
                7, some 7, none, NValue.always⟩], [], [], [],
                2⟩ : State).settings,
                r.user_id = some 7 ∧ r.team_id = none
                ∧ r.scope_type = ownScope (some 7) none
                ∧ r.scope_identifier = ownId (some 7) none
                ∧ r.provider = p ∧ r.type = t ∧ r.value ≠ NValue.default))
          ∧ (∀ row ∈ (update_provider_settings (some 7) none
              ⟨[⟨1, Provider.email, NType.issueAlerts, NScope.user, 7,
                some 7, none, NValue.always⟩], [], [], [],
                2⟩).2.providers,
              provKey p (some 7) none (ownScope (some 7) none)
                (ownId (some 7) none) t row = true →
              ∀ r ∈ (⟨[⟨1, Provider.email, NType.issueAlerts, NScope.user,
                7, some 7, none, NValue.always⟩], [], [], [],
                2⟩ : State).settings,
                r.user_id = some 7 → r.team_id = none →
                r.scope_type = ownScope (some 7) none →
                r.scope_identifier = ownId (some 7) none →
                r.provider = p → r.type = t →
                ((row.value = NValue.always ↔ r.value ≠ NValue.never)
                  ∧ (row.value = NValue.never ↔ r.value = NValue.never)))) :=
  ⟨Or.inl ⟨7, rfl, by decide, rfl⟩, by decide, by decide,
    update_provider_settings_projection
      ⟨[⟨1, Provider.email, NType.issueAlerts, NScope.user, 7, some 7, none,
        NValue.always⟩], [], [], [], 2⟩ (some 7) none
      (Or.inl ⟨7, rfl, by decide, rfl⟩) (by decide) (by decide) (by decide)⟩

end Sentry
